import Mathlib

/-!
Verification of the financial-etl-pipeline core against its specification.

We give a shallow embedding of the four core components the claims are
about — the sliding-window rate limiter (`src/utils/rate_limiter.py`),
the data standardizer (`src/transform/standardizer.py`), the data
validator (`src/transform/validator.py`) and the upsert loader
(`src/load/supabase_loader.py`) — and prove, or refute by concrete
counterexample, the stated properties.

Modelling conventions:
* Python floats and timestamps are modelled as rationals (`ℚ`);
  timestamps are seconds since the Unix epoch, UTC.
* A pandas `DataFrame` is a list of column names plus a list of rows,
  each row a list of cell values (`Value`).  A column's pandas dtype is
  derived from its values: a column is numeric-typed when it holds at
  least one number and nothing but numbers and nulls, datetime-typed
  when it holds at least one timestamp and nothing but timestamps and
  nulls (matching pandas' inference on such inputs, where `None`/`NaN`
  cells become `NaN`/`NaT`); empty or all-null columns are object-typed.
* Wall-clock reads (`time.time()`, `datetime.utcnow()`) become explicit
  `now` parameters; `time.sleep(d)` is modelled by reporting the slept
  duration `d`, so that a call arriving at time `t` completes at `t + d`.
* Code that can raise on its input's contents returns `Except String`.
-/

/-- A cell value of a tabular record: a number (Python int/float), a
string, a UTC timestamp (seconds since epoch), or a null (`None`, `NaN`
or `NaT`). -/
inductive Value where
  | num (q : ℚ)
  | str (s : String)
  | time (t : ℚ)
  | null
deriving DecidableEq, Repr

namespace Value

def isNum : Value → Bool
  | num _ => true
  | _ => false

def isStr : Value → Bool
  | str _ => true
  | _ => false

def isTime : Value → Bool
  | time _ => true
  | _ => false

def isNull : Value → Bool
  | null => true
  | _ => false

end Value

/-! Section: Rate limiter (`src/utils/rate_limiter.py`)

`RateLimiter` keeps, per registered source name, a `RateLimitConfig`
and a list of request timestamps; `wait_if_needed` is the acquire
operation.  Sources are independent (one lock and one window each), so
the per-source step `waitStep` carries all the behaviour of one
source's window. -/

/-- The `RateLimitConfig` from `rate_limiter.py`: `max_requests`,
`time_window` (seconds) and `retry_delay` (seconds, default 60). -/
structure RateLimitConfig where
  maxRequests : Nat
  timeWindow : ℚ
  retryDelay : ℚ
deriving DecidableEq, Repr

/-- Pruning of a source's window: keep the request timestamps strictly
newer than `now - time_window` (`rate_limiter.py` lines 46-50). -/
def pruneWindow (cfg : RateLimitConfig) (now : ℚ) (st : List ℚ) : List ℚ :=
  st.filter (fun reqTime => now - cfg.timeWindow < reqTime)

/-- One acquire step on one source's window
(`RateLimiter.wait_if_needed`, lines 42-67): prune timestamps at or
before `now - time_window`; if the remaining count is `≥ max_requests`,
sleep `retry_delay` seconds, reset the window to empty and report that
a wait occurred (the code does *not* append the new request's
timestamp on this branch); otherwise append `now` and return at once.
Result: (new window, wait occurred, seconds slept). -/
def waitStep (cfg : RateLimitConfig) (st : List ℚ) (now : ℚ) :
    List ℚ × Bool × ℚ :=
  if cfg.maxRequests ≤ (pruneWindow cfg now st).length then
    ([], true, cfg.retryDelay)
  else
    (pruneWindow cfg now st ++ [now], false, 0)

/-- The `RateLimiter` object: per-source configs and request windows
(the per-source locks serialize calls; they carry no other state). -/
structure RateLimiter where
  configs : List (String × RateLimitConfig)
  requests : List (String × List ℚ)
deriving DecidableEq, Repr

/-- Association-list lookup (Python `dict` access). -/
def lookupAssoc {β : Type} (k : String) : List (String × β) → Option β
  | [] => none
  | (k2, v) :: rest => if k2 = k then some v else lookupAssoc k rest

/-- Association-list update (Python `dict` assignment). -/
def insertAssoc {β : Type} (k : String) (v : β) :
    List (String × β) → List (String × β)
  | [] => [(k, v)]
  | (k2, v2) :: rest =>
    if k2 = k then (k2, v) :: rest else (k2, v2) :: insertAssoc k v rest

/-- The `RateLimiter.register_source`: store the config and reset the
source's window. -/
def registerSource (rl : RateLimiter) (source : String)
    (cfg : RateLimitConfig) : RateLimiter :=
  { configs := insertAssoc source cfg rl.configs,
    requests := insertAssoc source [] rl.requests }

/-- The `RateLimiter.wait_if_needed(source_name)`: an unregistered source
only logs a warning and returns `False` (no wait, no state change); a
registered source runs `waitStep` on its own window under its lock.
Result: (new limiter state, wait occurred, seconds slept). -/
def wait_if_needed (rl : RateLimiter) (source : String) (now : ℚ) :
    RateLimiter × Bool × ℚ :=
  match lookupAssoc source rl.configs with
  | none => (rl, false, 0)
  | some cfg =>
    let st := (lookupAssoc source rl.requests).getD []
    let r := waitStep cfg st now
    ({ rl with requests := insertAssoc source r.1 rl.requests }, r.2.1, r.2.2)

/-- Run a sequence of acquire calls against one source's window, one
call per arrival time.  Each entry of the result's first component is
(completion time, wait occurred, seconds slept): a call arriving at `t`
that sleeps `d` completes at `t + d`.  The second component is the
final window. -/
def runCalls (cfg : RateLimitConfig) :
    List ℚ → List ℚ → List (ℚ × Bool × ℚ) × List ℚ
  | [], st => ([], st)
  | a :: rest, st =>
    let r := waitStep cfg st a
    let tail := runCalls cfg rest r.1
    ((a + r.2.2, r.2.1, r.2.2) :: tail.1, tail.2)

/-- A schedule of arrival times is valid for a sequential caller (or
for callers serialized by the source's lock) when arrivals are
non-decreasing and each call arrives no earlier than the previous
call's completion. -/
def validSched (cfg : RateLimitConfig) : List ℚ → List ℚ → Bool
  | [], _ => true
  | [_], _ => true
  | a :: b :: rest, st =>
    let r := waitStep cfg st a
    decide (a ≤ b) && decide (a + r.2.2 ≤ b) && validSched cfg (b :: rest) r.1

/-- Completion times of a run. -/
def completions (cfg : RateLimitConfig) (arrivals : List ℚ) (st : List ℚ) :
    List ℚ :=
  (runCalls cfg arrivals st).1.map (fun r => r.1)

/-- Number of completions inside the half-open sliding window
`(lo, lo + len]`. -/
def completionsWithin (lo len : ℚ) (cs : List ℚ) : Nat :=
  (cs.filter (fun t => lo < t ∧ t ≤ lo + len)).length

/-- After any acquire step the stored window holds at most
`max_requests` timestamps: the wait branch empties it, the fast branch
only appends when the pruned count is under the limit. -/
theorem waitStep_window_le (cfg : RateLimitConfig) (st : List ℚ) (now : ℚ) :
    ((waitStep cfg st now).1).length ≤ cfg.maxRequests := by
  unfold waitStep
  split
  · simp
  · next h =>
    simp only [List.length_append, List.length_cons, List.length_nil]
    omega

/-- Every timestamp stored after an acquire step lies strictly inside
the trailing `time_window`, or is the current call's own timestamp. -/
theorem waitStep_window_mem (cfg : RateLimitConfig) (st : List ℚ) (now : ℚ) :
    ∀ t ∈ (waitStep cfg st now).1, now - cfg.timeWindow < t ∨ t = now := by
  intro t ht
  unfold waitStep at ht
  split at ht
  · simp at ht
  · rcases List.mem_append.mp ht with h | h
    · exact Or.inl (of_decide_eq_true (List.mem_filter.mp h).2)
    · exact Or.inr (by simpa using h)

/-- The window-length bound is preserved across any whole sequence of
acquire calls. -/
theorem runCalls_window_le (cfg : RateLimitConfig) (arrivals : List ℚ) :
    ∀ st : List ℚ, st.length ≤ cfg.maxRequests →
      ((runCalls cfg arrivals st).2).length ≤ cfg.maxRequests := by
  induction arrivals with
  | nil => intro st h; simpa [runCalls] using h
  | cons a rest ih =>
    intro st _
    simp only [runCalls]
    exact ih _ (waitStep_window_le cfg st a)

/-- Claim C2, counterexample.  With `max_requests = 5`,
`time_window = 60`, `retry_delay = 60`, the valid sequential schedule
in which five calls arrive at time 0, a sixth call arrives at time 0
(sleeps 60 seconds and clears the window) and five further calls
arrive at time 60, yields six completions inside the sliding window
`(0, 60]` of length 60 — more than `max_requests = 5`.  The claimed
sliding-window bound on completed `acquire` calls is therefore false
of the code: after a saturated call clears the window, the following
calls complete immediately. -/
theorem rateLimiter_sliding_window_counterexample :
    validSched ⟨5, 60, 60⟩ [0, 0, 0, 0, 0, 0, 60, 60, 60, 60, 60] [] = true ∧
    completionsWithin 0 60
      (completions ⟨5, 60, 60⟩ [0, 0, 0, 0, 0, 0, 60, 60, 60, 60, 60] []) = 6 ∧
    5 < 6 := by
  refine ⟨by with_unfolding_all decide, by with_unfolding_all decide, by omega⟩

/-- Claim C2 (amended): for every registered source, the *recorded*
request window never holds more than `max_requests` timestamps, and
every recorded timestamp lies within the trailing `time_window` of the
call that recorded it; a call arriving while the pruned window is
saturated sleeps exactly `retry_delay` seconds (hence waits at least
`retry_delay`) before completing; concretely, with `max_requests = 5`,
`time_window = 60`, `retry_delay = 60`, five immediate calls complete
without sleeping and the sixth sleeps 60 seconds.  (No bound of
`max_requests` completions per arbitrary sliding window holds for the
code, because a saturated call clears the window without re-filling
it; see the counterexample.) -/
theorem rateLimiter_window_bound :
    (∀ (cfg : RateLimitConfig) (arrivals st : List ℚ),
        st.length ≤ cfg.maxRequests →
        ((runCalls cfg arrivals st).2).length ≤ cfg.maxRequests) ∧
    (∀ (cfg : RateLimitConfig) (st : List ℚ) (now : ℚ),
        ∀ t ∈ (waitStep cfg st now).1, now - cfg.timeWindow < t ∨ t = now) ∧
    (∀ (cfg : RateLimitConfig) (st : List ℚ) (now : ℚ),
        cfg.maxRequests ≤ (pruneWindow cfg now st).length →
        waitStep cfg st now = ([], true, cfg.retryDelay)) ∧
    (runCalls ⟨5, 60, 60⟩ [0, 0, 0, 0, 0, 0] []).1.map (fun r => (r.2.1, r.2.2)) =
      [(false, 0), (false, 0), (false, 0), (false, 0), (false, 0), (true, 60)] := by
  refine ⟨fun cfg arrivals st h => runCalls_window_le cfg arrivals st h,
    waitStep_window_mem, fun cfg st now h => ?_, by with_unfolding_all decide⟩
  unfold waitStep
  rw [if_pos h]

/-- Witness for `rateLimiter_window_bound` at concrete inputs. -/
theorem rateLimiter_window_bound_witness :
    ((runCalls ⟨2, 60, 60⟩ [0, 1, 2] []).2).length ≤ 2 ∧
    waitStep ⟨1, 60, 60⟩ [5] 10 = ([], true, 60) :=
  ⟨rateLimiter_window_bound.1 ⟨2, 60, 60⟩ [0, 1, 2] [] (by simp),
   rateLimiter_window_bound.2.2.1 ⟨1, 60, 60⟩ [5] 10 (by with_unfolding_all decide)⟩

/-- Claim C3, counterexample.  With `max_requests = 1`,
`time_window = 60`, `retry_delay = 60`, a second call at time 10
against the window `[0]` takes the saturated branch: it waits, and the
resulting window is empty — the code clears the window after sleeping
and does *not* record the new request's timestamp, contrary to the
claim that the new request is recorded after the wait. -/
theorem rateLimiter_wait_records_counterexample :
    (waitStep ⟨1, 60, 60⟩ [0] 10).1 = [] ∧
    (waitStep ⟨1, 60, 60⟩ [0] 10).2.1 = true := by
  with_unfolding_all decide

/-- Claim C3 (amended): for every registered source, one acquire call
first removes all recorded timestamps at or older than
`now - time_window`; if the remaining count is at least `max_requests`
it sleeps `retry_delay` seconds, then clears the window — *without*
recording the new request's timestamp — and returns that a wait
occurred; if the count is under the limit it appends the current
timestamp and returns immediately with no wait. -/
theorem rateLimiter_acquire_algorithm :
    ∀ (rl : RateLimiter) (source : String) (now : ℚ) (cfg : RateLimitConfig),
      lookupAssoc source rl.configs = some cfg →
      (∀ t : ℚ,
          t ∈ pruneWindow cfg now ((lookupAssoc source rl.requests).getD []) ↔
          t ∈ (lookupAssoc source rl.requests).getD [] ∧
            now - cfg.timeWindow < t) ∧
      (cfg.maxRequests ≤
          (pruneWindow cfg now ((lookupAssoc source rl.requests).getD [])).length →
        wait_if_needed rl source now =
          ({ rl with requests := insertAssoc source [] rl.requests },
            true, cfg.retryDelay)) ∧
      ((pruneWindow cfg now ((lookupAssoc source rl.requests).getD [])).length <
          cfg.maxRequests →
        wait_if_needed rl source now =
          (RateLimiter.mk rl.configs
            (insertAssoc source
              (pruneWindow cfg now ((lookupAssoc source rl.requests).getD []) ++ [now])
              rl.requests), false, 0)) := by
  intro rl source now cfg hcfg
  refine ⟨fun t => ?_, fun h => ?_, fun h => ?_⟩
  · simp [pruneWindow, List.mem_filter]
  · simp only [wait_if_needed, hcfg]
    unfold waitStep
    rw [if_pos h]
  · simp only [wait_if_needed, hcfg]
    unfold waitStep
    rw [if_neg (by omega)]

/-- Witness for `rateLimiter_acquire_algorithm` at a concrete limiter:
one registered source `"src"` with one recorded request, saturated. -/
theorem rateLimiter_acquire_algorithm_witness :
    wait_if_needed ⟨[("src", ⟨1, 60, 60⟩)], [("src", [0])]⟩ "src" 10 =
      (⟨[("src", ⟨1, 60, 60⟩)], [("src", [])]⟩, true, 60) :=
  (rateLimiter_acquire_algorithm ⟨[("src", ⟨1, 60, 60⟩)], [("src", [0])]⟩
    "src" 10 ⟨1, 60, 60⟩ (by with_unfolding_all decide)).2.1
    (by with_unfolding_all decide)

/-! Section: Calendar helpers

Civil-calendar conversions used to embed `pandas` timestamp component
extraction and ISO formatting.  `Int` division `/` in Lean is Euclidean
division, which for the positive divisors below coincides with floor
division, so no sign adjustments are needed. -/

/-- Days since 1970-01-01 to civil (year, month, day), proleptic
Gregorian calendar. -/
def civilFromDays (z0 : Int) : Int × Int × Int :=
  let z := z0 + 719468
  let era := z / 146097
  let doe := z - era * 146097
  let yoe := (doe - doe / 1460 + doe / 36524 - doe / 146096) / 365
  let y := yoe + era * 400
  let doy := doe - (365 * yoe + yoe / 4 - yoe / 100)
  let mp := (5 * doy + 2) / 153
  let d := doy - (153 * mp + 2) / 5 + 1
  let m := mp + (if mp < 10 then 3 else -9)
  (y + (if m ≤ 2 then 1 else 0), m, d)

/-- Civil (year, month, day) to days since 1970-01-01. -/
def daysFromCivil (y m d : Int) : Int :=
  let yAdj := y - (if m ≤ 2 then 1 else 0)
  let era := yAdj / 400
  let yoe := yAdj - era * 400
  let mp := (m + 9) % 12
  let doy := (153 * mp + 2) / 5 + d - 1
  let doe := yoe * 365 + yoe / 4 - yoe / 100 + doy
  era * 146097 + doe - 719468

/-- Epoch day of a timestamp (seconds since epoch). -/
def epochDay (t : ℚ) : Int := ⌊t / 86400⌋

/-- Second of day of a timestamp. -/
def secondOfDay (t : ℚ) : Int := ⌊t⌋ - epochDay t * 86400

/-- Day of week, Monday = 0 (pandas `dt.dayofweek`);
1970-01-01 was a Thursday. -/
def dayOfWeekM (z : Int) : Int := (z + 3) % 7

/-- Day of year, 1-based (pandas `dt.dayofyear`). -/
def dayOfYear (y m d : Int) : Int := daysFromCivil y m d - daysFromCivil y 1 1 + 1

/-- Auxiliary for ISO week numbering. -/
def isoP (y : Int) : Int := (y + y / 4 - y / 100 + y / 400) % 7

/-- Number of ISO weeks in a year (52 or 53). -/
def isoWeeksInYear (y : Int) : Int :=
  if isoP y = 4 ∨ isoP (y - 1) = 3 then 53 else 52

/-- ISO week number (pandas `dt.isocalendar().week`). -/
def isoWeek (y m d : Int) : Int :=
  let doy := dayOfYear y m d
  let dow := dayOfWeekM (daysFromCivil y m d) + 1
  let w := (10 + doy - dow) / 7
  if w < 1 then isoWeeksInYear (y - 1)
  else if isoWeeksInYear y < w then 1
  else w

/-- Left-pad a natural number's decimal form to two digits. -/
def pad2 (n : Int) : String :=
  if n < 10 then "0" ++ toString n else toString n

/-- The `YYYY-MM-DD` form of an epoch-seconds timestamp (the `str` of a
Python `date`). -/
def formatDate (t : ℚ) : String :=
  let c := civilFromDays (epochDay t)
  toString c.1 ++ "-" ++ pad2 c.2.1 ++ "-" ++ pad2 c.2.2

/-- ISO-8601 form of a UTC epoch-seconds timestamp, as produced by
`Timestamp.isoformat()` on a tz-aware value. -/
def formatTimestamp (t : ℚ) : String :=
  let sod := secondOfDay t
  formatDate t ++ "T" ++ pad2 (sod / 3600) ++ ":" ++ pad2 (sod % 3600 / 60)
    ++ ":" ++ pad2 (sod % 60) ++ "+00:00"

/-! Section: Loader (`src/load/supabase_loader.py`)

The loader maps a batch of records to chunked upserts against the
persistence collaborator.  The records are dictionaries
(association lists of field name to value); the persisted store is the
list of rows held by the collaborator. -/

/-- A record handed to the loader, and a persisted row: a mapping of
field name to value. -/
abbrev LoadRow := List (String × Value)

/-- The conflict key of a record: its values at the
`conflict_columns`, in order (`None` for an absent field). -/
def rowKey (conflictCols : List String) (r : LoadRow) : List (Option Value) :=
  conflictCols.map (fun c => lookupAssoc c r)

/-- The `SupabaseLoader._serialize_data` on one value: timestamps become
ISO-format strings, nulls (`NaN`) become `None`; everything else is
unchanged.  (The records produced by the loader are flat, so the
dict/list recursion of the source collapses to this value map.) -/
def serializeValue : Value → Value
  | .time t => .str (formatTimestamp t)
  | .null => .null
  | .num q => .num q
  | .str s => .str s

/-- The `_serialize_data` on one record. -/
def serializeRow (r : LoadRow) : LoadRow :=
  r.map (fun p => (p.1, serializeValue p.2))

/-- Modelled from the spec: the persistence client's
`upsert(table_name, rows, conflict_columns)` (spec §6) is not part of
this repository (it is the Supabase client); per the spec's
insert-or-update conflict-key semantics, a stored row whose conflict
key matches the incoming record is replaced in place and never
duplicated, and a record with a fresh key is appended. -/
def upsertRow (conflictCols : List String) (store : List LoadRow)
    (r : LoadRow) : List LoadRow :=
  if store.any (fun x => rowKey conflictCols x = rowKey conflictCols r) then
    store.map (fun x => if rowKey conflictCols x = rowKey conflictCols r then r else x)
  else
    store ++ [r]

/-- Split a list into consecutive chunks of size `bs` (the batch loop
`for i in range(0, len(data), batch_size)`); `bs = 0` is a caller
error in the source (`range` would raise), so chunking is used below
only for `1 ≤ bs`, where the fuel `l.length` suffices. -/
def chunksOfFuel {α : Type} : Nat → Nat → List α → List (List α)
  | 0, _, _ => []
  | _, _, [] => []
  | fuel + 1, bs, l => l.take bs :: chunksOfFuel fuel bs (l.drop bs)

/-- Split a list into consecutive chunks of size `bs`. -/
def chunksOf {α : Type} (bs : Nat) (l : List α) : List (List α) :=
  chunksOfFuel l.length bs l

/-- The `SupabaseLoader.upsert_data` (lines 59-146), applied to a store:
process the batch in chunks of `batch_size`, serializing timestamps
and upserting each chunk keyed on `conflict_columns`. -/
def upsert_data (conflictCols : List String) (batchSize : Nat)
    (store : List LoadRow) (data : List LoadRow) : List LoadRow :=
  (chunksOf batchSize data).foldl
    (fun st batch => (batch.map serializeRow).foldl (upsertRow conflictCols) st)
    store

theorem exists_key_upsertRow (cols : List String) (store : List LoadRow)
    (r : LoadRow) {k : List (Option Value)}
    (h : ∃ x ∈ store, rowKey cols x = k) :
    ∃ x ∈ upsertRow cols store r, rowKey cols x = k := by
  rcases h with ⟨x, hx, hk⟩
  unfold upsertRow
  split
  · by_cases hxr : rowKey cols x = rowKey cols r
    · exact ⟨r, List.mem_map.mpr ⟨x, hx, if_pos hxr⟩, by rw [← hxr, hk]⟩
    · exact ⟨x, List.mem_map.mpr ⟨x, hx, if_neg hxr⟩, hk⟩
  · exact ⟨x, List.mem_append.mpr (Or.inl hx), hk⟩

theorem exists_key_upsertRow_self (cols : List String) (store : List LoadRow)
    (r : LoadRow) :
    ∃ x ∈ upsertRow cols store r, rowKey cols x = rowKey cols r := by
  unfold upsertRow
  split
  · next hc =>
    rcases List.any_eq_true.mp hc with ⟨x, hx, hk⟩
    exact ⟨r, List.mem_map.mpr ⟨x, hx, if_pos (of_decide_eq_true hk)⟩, rfl⟩
  · exact ⟨r, List.mem_append.mpr (Or.inr (by simp)), rfl⟩

theorem length_upsertRow_of_key (cols : List String) (store : List LoadRow)
    (r : LoadRow) (h : ∃ x ∈ store, rowKey cols x = rowKey cols r) :
    (upsertRow cols store r).length = store.length := by
  unfold upsertRow
  rw [if_pos, List.length_map]
  rcases h with ⟨x, hx, hk⟩
  exact List.any_eq_true.mpr ⟨x, hx, decide_eq_true hk⟩

theorem exists_key_foldl (cols : List String) (data : List LoadRow)
    {k : List (Option Value)} :
    ∀ store : List LoadRow, (∃ x ∈ store, rowKey cols x = k) →
      ∃ x ∈ data.foldl (upsertRow cols) store, rowKey cols x = k := by
  induction data with
  | nil => exact fun store h => h
  | cons a rest ih =>
    intro store h
    exact ih _ (exists_key_upsertRow cols store a h)

theorem exists_key_foldl_mem (cols : List String) (data : List LoadRow)
    (r : LoadRow) (hr : r ∈ data) :
    ∀ store : List LoadRow,
      ∃ x ∈ data.foldl (upsertRow cols) store, rowKey cols x = rowKey cols r := by
  induction data with
  | nil => cases hr
  | cons a rest ih =>
    intro store
    rcases List.mem_cons.mp hr with h | h
    · subst h
      exact exists_key_foldl cols rest _ (exists_key_upsertRow_self cols store r)
    · exact ih h _

theorem length_foldl_of_keys (cols : List String) (data : List LoadRow) :
    ∀ store : List LoadRow,
      (∀ r ∈ data, ∃ x ∈ store, rowKey cols x = rowKey cols r) →
      (data.foldl (upsertRow cols) store).length = store.length := by
  induction data with
  | nil => exact fun store _ => rfl
  | cons a rest ih =>
    intro store h
    rw [List.foldl_cons,
      ih _ (fun r hr => exists_key_upsertRow cols store a (h r (List.mem_cons_of_mem a hr))),
      length_upsertRow_of_key cols store a (h a (List.mem_cons_self a rest))]

theorem foldl_upsert_length_eq (cols : List String)
    (dataA dataB : List LoadRow) (store : List LoadRow)
    (hk : dataB.map (rowKey cols) = dataA.map (rowKey cols)) :
    (dataB.foldl (upsertRow cols) (dataA.foldl (upsertRow cols) store)).length
      = (dataA.foldl (upsertRow cols) store).length := by
  apply length_foldl_of_keys
  intro r hr
  have hmem : rowKey cols r ∈ dataA.map (rowKey cols) := by
    rw [← hk]; exact List.mem_map_of_mem _ hr
  rcases List.mem_map.mp hmem with ⟨r1, hr1, hkey⟩
  rcases exists_key_foldl_mem cols dataA r1 hr1 store with ⟨x, hx, hxk⟩
  exact ⟨x, hx, by rw [hxk, hkey]⟩

theorem foldl_chunksOfFuel {α β : Type} (f : β → α → β) (bs : Nat)
    (hbs : 1 ≤ bs) :
    ∀ (fuel : Nat) (l : List α), l.length ≤ fuel → ∀ init : β,
      (chunksOfFuel fuel bs l).foldl (fun st batch => batch.foldl f st) init
        = l.foldl f init := by
  intro fuel
  induction fuel with
  | zero =>
    intro l hl init
    rw [List.length_eq_zero.mp (Nat.le_zero.mp hl)]
    rfl
  | succ n ih =>
    intro l hl init
    match l with
    | [] => rfl
    | x :: xs =>
      show (((x :: xs).take bs :: chunksOfFuel n bs ((x :: xs).drop bs)).foldl
        (fun st batch => batch.foldl f st) init) = _
      rw [List.foldl_cons, ih ((x :: xs).drop bs)
        (by simp only [List.length_drop, List.length_cons]
            simp only [List.length_cons] at hl
            omega) _,
        ← List.foldl_append, List.take_append_drop]

theorem upsert_data_eq_foldl (cols : List String) (bs : Nat) (hbs : 1 ≤ bs)
    (store : List LoadRow) (data : List LoadRow) :
    upsert_data cols bs store data
      = (data.map serializeRow).foldl (upsertRow cols) store := by
  unfold upsert_data chunksOf
  simp only [List.foldl_map]
  exact foldl_chunksOfFuel (fun st r => upsertRow cols st (serializeRow r))
    bs hbs data.length data (Nat.le_refl _) store

/-- Claim C1: loader idempotence.  For every conflict-key choice,
batch size `≥ 1` (the source's `batch_size` is positive), starting
store and batch, re-running `upsert_data` with a batch carrying the
same conflict keys (in particular, with the identical batch) leaves
the persisted row count unchanged compared to running it once: the
upsert updates matching rows in place and never appends duplicates. -/
theorem loader_upsert_idempotent (conflictCols : List String) (bs : Nat)
    (store dataA dataB : List LoadRow) (hbs : 1 ≤ bs)
    (hk : dataB.map (fun r => rowKey conflictCols (serializeRow r))
        = dataA.map (fun r => rowKey conflictCols (serializeRow r))) :
    (upsert_data conflictCols bs
        (upsert_data conflictCols bs store dataA) dataB).length
      = (upsert_data conflictCols bs store dataA).length := by
  rw [upsert_data_eq_foldl conflictCols bs hbs,
    upsert_data_eq_foldl conflictCols bs hbs]
  apply foldl_upsert_length_eq
  rw [List.map_map, List.map_map]
  exact hk

/-- Witness for `loader_upsert_idempotent`: a 3-record batch keyed on
`symbol`+`date`, loaded twice with batch size 2, persists exactly 3
rows and the second run leaves the count unchanged. -/
theorem loader_upsert_idempotent_witness :
    (upsert_data ["symbol", "date"] 2
        (upsert_data ["symbol", "date"] 2 []
          [[("symbol", Value.str "AAPL"), ("date", Value.str "2024-01-01"), ("close", Value.num 1)],
           [("symbol", Value.str "MSFT"), ("date", Value.str "2024-01-01"), ("close", Value.num 2)],
           [("symbol", Value.str "AAPL"), ("date", Value.str "2024-01-02"), ("close", Value.num 3)]])
        [[("symbol", Value.str "AAPL"), ("date", Value.str "2024-01-01"), ("close", Value.num 1)],
         [("symbol", Value.str "MSFT"), ("date", Value.str "2024-01-01"), ("close", Value.num 2)],
         [("symbol", Value.str "AAPL"), ("date", Value.str "2024-01-02"), ("close", Value.num 3)]]).length
      = (upsert_data ["symbol", "date"] 2 []
          [[("symbol", Value.str "AAPL"), ("date", Value.str "2024-01-01"), ("close", Value.num 1)],
           [("symbol", Value.str "MSFT"), ("date", Value.str "2024-01-01"), ("close", Value.num 2)],
           [("symbol", Value.str "AAPL"), ("date", Value.str "2024-01-02"), ("close", Value.num 3)]]).length
    ∧ (upsert_data ["symbol", "date"] 2 []
        [[("symbol", Value.str "AAPL"), ("date", Value.str "2024-01-01"), ("close", Value.num 1)],
         [("symbol", Value.str "MSFT"), ("date", Value.str "2024-01-01"), ("close", Value.num 2)],
         [("symbol", Value.str "AAPL"), ("date", Value.str "2024-01-02"), ("close", Value.num 3)]]).length = 3 :=
  ⟨loader_upsert_idempotent ["symbol", "date"] 2 [] _ _ (by omega) rfl,
   by with_unfolding_all decide⟩

/-! Section: Tabular data model

A pandas `DataFrame` as used by the validator and standardizer: column
names plus rows of cells.  Column dtypes are derived from the stored
values (see the module docstring). -/

/-- A DataFrame: column names and rows of cells (one cell per column,
positionally). -/
structure DF where
  cols : List String
  rows : List (List Value)
deriving DecidableEq, Repr

/-- The `df.empty`: true when either axis has length zero. -/
def DF.isEmpty (df : DF) : Bool := df.rows.isEmpty || df.cols.isEmpty

/-- The `col in df.columns`. -/
def DF.hasCol (df : DF) (c : String) : Bool := df.cols.contains c

/-- The `df[c]`: the cell series of column `c` (empty when absent — all
embedded uses are guarded by `hasCol`). -/
def DF.getCol (df : DF) (c : String) : List Value :=
  match df.cols.indexOf? c with
  | none => []
  | some i => df.rows.map (fun r => r.getD i Value.null)

/-- The cell of row `r` at column `c` of `df`. -/
def DF.cellOf (df : DF) (r : List Value) (c : String) : Value :=
  match df.cols.indexOf? c with
  | none => Value.null
  | some i => r.getD i Value.null

/-- pandas numeric dtype, derived from the values: at least one number
and nothing but numbers and nulls. -/
def numericDtype (vs : List Value) : Bool :=
  vs.any Value.isNum && vs.all (fun v => v.isNum || v.isNull)

/-- pandas datetime dtype, derived from the values: at least one
timestamp and nothing but timestamps and nulls (`NaT`). -/
def datetimeDtype (vs : List Value) : Bool :=
  vs.any Value.isTime && vs.all (fun v => v.isTime || v.isNull)

/-! Subsection: Python string primitives

Python-`str` operations used by the embedded code, implemented over
`List Char` so that they evaluate by kernel reduction. -/

/-- Split on a non-empty separator (`str.split(sep)`); fuel-driven
scan, fuel `length + 1` always suffices. -/
def splitCharsFuel : Nat → List Char → List Char → List Char → List (List Char)
  | 0, _, acc, l => [acc.reverse ++ l]
  | fuel + 1, sep, acc, l =>
    if sep.isPrefixOf l then
      acc.reverse :: splitCharsFuel fuel sep [] (l.drop sep.length)
    else
      match l with
      | [] => [acc.reverse]
      | c :: rest => splitCharsFuel fuel sep (c :: acc) rest

/-- Python `s.split(sep)` for non-empty `sep`. -/
def pySplit (s sep : String) : List String :=
  (splitCharsFuel (s.toList.length + 1) sep.toList [] s.toList).map
    (fun cs => String.mk cs)

/-- Python `sub in s` for non-empty `sub`. -/
def pyContains (s sub : String) : Bool := 2 ≤ (pySplit s sub).length

/-- Python `s.replace(pat, rep)` (all occurrences) for non-empty `pat`. -/
def pyReplace (s pat rep : String) : String :=
  String.mk (List.intercalate rep.toList
    (splitCharsFuel (s.toList.length + 1) pat.toList [] s.toList))

/-- Python `s.startswith(p)`. -/
def pyStartsWith (s p : String) : Bool := p.toList.isPrefixOf s.toList

/-- Python `s.endswith(p)`. -/
def pyEndsWith (s p : String) : Bool := p.toList.reverse.isPrefixOf s.toList.reverse

/-- Python `s.strip()`. -/
def pyStrip (s : String) : String :=
  String.mk (((s.toList.dropWhile Char.isWhitespace).reverse.dropWhile
    Char.isWhitespace).reverse)

/-- Python `s.lower()` (ASCII, as in the embedded column names). -/
def pyLower (s : String) : String := String.mk (s.toList.map Char.toLower)

/-- Python `s.upper()` (ASCII). -/
def pyUpper (s : String) : String := String.mk (s.toList.map Char.toUpper)

/-- Decimal digit run to a natural number, `none` when empty or
non-digit. -/
def digitsToNat (cs : List Char) : Option Nat :=
  if cs.isEmpty || !cs.all Char.isDigit then none
  else some (cs.foldl (fun n c => n * 10 + (c.toNat - 48)) 0)

/-- Parse a decimal literal (optional sign, digits, optional fraction)
to a rational — the embedding of `pandas.to_numeric` on a string cell.
Scientific notation is not produced by the embedded sources, so it is
not modelled. -/
def parseQ (s : String) : Option ℚ :=
  let cs := s.toList
  let core := fun (l : List Char) =>
    match splitCharsFuel (l.length + 1) ['.'] [] l with
    | [ip] => (digitsToNat ip).map (fun n => (n : ℚ))
    | [ip, fp] =>
      match digitsToNat ip, digitsToNat fp with
      | some n, some f => some ((n : ℚ) + (f : ℚ) / ((10 : ℚ) ^ fp.length))
      | _, _ => none
    | _ => none
  match cs with
  | '-' :: rest => (core rest).map (fun q => -q)
  | '+' :: rest => core rest
  | _ => core cs

/-! Section: Validator data model (`src/transform/validator.py`) -/

/-- The `ValidationLevel` severity enum. -/
inductive ValidationLevel where
  | info
  | warning
  | error
  | critical
deriving DecidableEq, Repr

/-- A detail value of a `ValidationResult` (`details` dict entries):
numbers, strings, lists of column names; `rt q` stands for the float
`√q` (the standard deviation stored by the anomaly check). -/
inductive DetailVal where
  | n (q : ℚ)
  | s (t : String)
  | ls (l : List String)
  | rt (q : ℚ)
deriving DecidableEq, Repr

/-- The `ValidationResult`: one named check outcome. -/
structure ValidationResult where
  check_name : String
  level : ValidationLevel
  message : String
  details : List (String × DetailVal)
  passed : Bool
  timestamp : ℚ
deriving DecidableEq, Repr

/-- The `ValidationSummary`: ordered results plus running counters. -/
structure ValidationSummary where
  total_checks : Nat
  passed_checks : Nat
  failed_checks : Nat
  warnings : Nat
  errors : Nat
  critical_issues : Nat
  results : List ValidationResult
deriving DecidableEq, Repr

/-- A freshly created `ValidationSummary()`. -/
def ValidationSummary.init : ValidationSummary := ⟨0, 0, 0, 0, 0, 0, []⟩

/-- The `ValidationSummary.add_result` (lines 55-70): append the result,
bump `total_checks`, bump exactly one of `passed_checks` /
`failed_checks`, and count failed results per level. -/
def ValidationSummary.add_result (s : ValidationSummary)
    (r : ValidationResult) : ValidationSummary :=
  if r.passed then
    { s with
      results := s.results ++ [r],
      total_checks := s.total_checks + 1,
      passed_checks := s.passed_checks + 1 }
  else
    { s with
      results := s.results ++ [r],
      total_checks := s.total_checks + 1,
      failed_checks := s.failed_checks + 1,
      warnings := if r.level = ValidationLevel.warning then s.warnings + 1 else s.warnings,
      errors := if r.level = ValidationLevel.error then s.errors + 1 else s.errors,
      critical_issues := if r.level = ValidationLevel.critical then
        s.critical_issues + 1 else s.critical_issues }

/-- The `ValidationSummary.is_valid(threshold)` (lines 72-88): vacuously
true on zero checks, otherwise pass rate at least `threshold` and no
critical issue counted. -/
def ValidationSummary.is_valid (s : ValidationSummary) (threshold : ℚ) : Bool :=
  if s.total_checks = 0 then true
  else
    decide (threshold ≤ (s.passed_checks : ℚ) / (s.total_checks : ℚ))
      && !(decide (0 < s.critical_issues))

/-- The `is_valid()` with its default argument `threshold = 0.95`. -/
def ValidationSummary.isValidDefault (s : ValidationSummary) : Bool :=
  s.is_valid (19 / 20)

/-- The summary built by adding a list of results to a fresh summary. -/
def summaryOf (rs : List ValidationResult) : ValidationSummary :=
  rs.foldl ValidationSummary.add_result ValidationSummary.init

theorem add_result_total (s : ValidationSummary) (r : ValidationResult) :
    (s.add_result r).total_checks = s.total_checks + 1 := by
  unfold ValidationSummary.add_result
  split <;> rfl

theorem add_result_passed (s : ValidationSummary) (r : ValidationResult) :
    (s.add_result r).passed_checks
      = s.passed_checks + (if r.passed then 1 else 0) := by
  unfold ValidationSummary.add_result
  split
  · next h => simp [h]
  · next h => simp at h; simp [h]

theorem add_result_failed (s : ValidationSummary) (r : ValidationResult) :
    (s.add_result r).failed_checks
      = s.failed_checks + (if r.passed then 0 else 1) := by
  unfold ValidationSummary.add_result
  split
  · next h => simp [h]
  · next h => simp at h; simp [h]

theorem add_result_critical (s : ValidationSummary) (r : ValidationResult) :
    (s.add_result r).critical_issues = s.critical_issues +
      (if (!r.passed && decide (r.level = ValidationLevel.critical)) then 1 else 0) := by
  unfold ValidationSummary.add_result
  split
  · next h => simp [h]
  · next h =>
    simp at h
    simp only [h, Bool.not_false, Bool.true_and, decide_eq_true_eq]
    split
    · next h2 => simp [h2]
    · next h2 => simp [h2]

theorem foldl_add_total (rs : List ValidationResult) :
    ∀ s : ValidationSummary,
      (rs.foldl ValidationSummary.add_result s).total_checks
        = s.total_checks + rs.length := by
  induction rs with
  | nil => intro s; simp
  | cons r rest ih =>
    intro s
    rw [List.foldl_cons, ih, add_result_total, List.length_cons]
    omega

theorem foldl_add_passed (rs : List ValidationResult) :
    ∀ s : ValidationSummary,
      (rs.foldl ValidationSummary.add_result s).passed_checks
        = s.passed_checks + (rs.filter (fun r => r.passed)).length := by
  induction rs with
  | nil => intro s; simp
  | cons r rest ih =>
    intro s
    rw [List.foldl_cons, ih, add_result_passed]
    by_cases h : r.passed = true
    · simp [h, List.filter_cons]; omega
    · simp at h; simp [h, List.filter_cons]

theorem foldl_add_failed (rs : List ValidationResult) :
    ∀ s : ValidationSummary,
      (rs.foldl ValidationSummary.add_result s).failed_checks
        = s.failed_checks + (rs.filter (fun r => !r.passed)).length := by
  induction rs with
  | nil => intro s; simp
  | cons r rest ih =>
    intro s
    rw [List.foldl_cons, ih, add_result_failed]
    by_cases h : r.passed = true
    · simp [h, List.filter_cons]
    · simp at h; simp [h, List.filter_cons]; omega

theorem foldl_add_critical (rs : List ValidationResult) :
    ∀ s : ValidationSummary,
      (rs.foldl ValidationSummary.add_result s).critical_issues
        = s.critical_issues + (rs.filter
            (fun r => !r.passed && decide (r.level = ValidationLevel.critical))).length := by
  induction rs with
  | nil => intro s; simp
  | cons r rest ih =>
    intro s
    rw [List.foldl_cons, ih, add_result_critical]
    by_cases h : (!r.passed && decide (r.level = ValidationLevel.critical)) = true
    · simp [h, List.filter_cons]; omega
    · simp only [Bool.not_eq_true] at h
      simp [h, List.filter_cons]

/-- Claim C8: counter invariant of `ValidationSummary`.  After every
sequence of `add_result` calls on a fresh summary,
`passed_checks + failed_checks = total_checks`; and one further
`add_result` increments `total_checks` by one and exactly one of
`passed_checks` / `failed_checks` by one (the one matching the
result's `passed` flag). -/
theorem validationSummary_counter_invariant :
    ∀ (rs : List ValidationResult) (r : ValidationResult),
      (summaryOf rs).passed_checks + (summaryOf rs).failed_checks
          = (summaryOf rs).total_checks ∧
      ((summaryOf rs).add_result r).total_checks
          = (summaryOf rs).total_checks + 1 ∧
      ((summaryOf rs).add_result r).passed_checks
          = (summaryOf rs).passed_checks + (if r.passed then 1 else 0) ∧
      ((summaryOf rs).add_result r).failed_checks
          = (summaryOf rs).failed_checks + (if r.passed then 0 else 1) := by
  intro rs r
  refine ⟨?_, add_result_total _ r, add_result_passed _ r, add_result_failed _ r⟩
  unfold summaryOf
  rw [foldl_add_total, foldl_add_passed, foldl_add_failed]
  have hsplit : (rs.filter (fun r => r.passed)).length
      + (rs.filter (fun r => !r.passed)).length = rs.length := by
    induction rs with
    | nil => rfl
    | cons a rest ih =>
      by_cases ha : a.passed = true
      · simp [List.filter_cons, ha]; omega
      · simp only [Bool.not_eq_true] at ha
        simp [List.filter_cons, ha]; omega
  simp only [ValidationSummary.init]
  omega

/-- Claim C4: the verdict.  For a summary built from any sequence of
results with at least one check recorded, `is_valid(threshold)` is
true iff `passed/total ≥ threshold` and no CRITICAL-level failed
result is present; and the no-argument form uses threshold `0.95`. -/
theorem validationSummary_verdict (rs : List ValidationResult) (θ : ℚ)
    (h : (summaryOf rs).total_checks ≠ 0) :
    ((summaryOf rs).is_valid θ = true ↔
      (θ ≤ ((summaryOf rs).passed_checks : ℚ) / ((summaryOf rs).total_checks : ℚ) ∧
        ¬ ∃ r ∈ rs, r.level = ValidationLevel.critical ∧ r.passed = false)) ∧
    (summaryOf rs).isValidDefault = (summaryOf rs).is_valid (19 / 20) := by
  refine ⟨?_, rfl⟩
  unfold ValidationSummary.is_valid
  rw [if_neg h]
  rw [Bool.and_eq_true, decide_eq_true_eq, Bool.not_eq_true',
    decide_eq_false_iff_not, Nat.not_lt, Nat.le_zero]
  constructor
  · rintro ⟨h1, h2⟩
    refine ⟨h1, ?_⟩
    rintro ⟨r, hr, hcrit, hfail⟩
    have hc := foldl_add_critical rs ValidationSummary.init
    unfold summaryOf at h2
    rw [hc] at h2
    simp only [ValidationSummary.init, Nat.zero_add, List.length_eq_zero] at h2
    have : r ∈ List.filter
        (fun r => !r.passed && decide (r.level = ValidationLevel.critical)) rs := by
      apply List.mem_filter.mpr
      exact ⟨hr, by simp [hcrit, hfail]⟩
    rw [h2] at this
    cases this
  · rintro ⟨h1, h2⟩
    refine ⟨h1, ?_⟩
    have hc := foldl_add_critical rs ValidationSummary.init
    unfold summaryOf
    rw [hc]
    simp only [ValidationSummary.init, Nat.zero_add, List.length_eq_zero]
    rw [List.filter_eq_nil_iff]
    intro r hr
    simp only [Bool.and_eq_true, Bool.not_eq_true', decide_eq_true_eq, not_and]
    intro hfail hcrit
    exact h2 ⟨r, hr, hcrit, by simpa using hfail⟩

/-- Witness for `validationSummary_verdict`: one passed result, no
critical failures, threshold one half — the verdict is true. -/
theorem validationSummary_verdict_witness :
    (summaryOf [⟨"required_columns", ValidationLevel.info, "", [], true, 0⟩]).is_valid
      (1 / 2) = true :=
  ((validationSummary_verdict
      [⟨"required_columns", ValidationLevel.info, "", [], true, 0⟩] (1 / 2)
      (by with_unfolding_all decide)).1).mpr
    ⟨by with_unfolding_all decide, by simp⟩

/-- Claim C10: vacuous verdict.  A summary with `total_checks = 0`
(in particular a fresh one with no results added) is reported valid
for every threshold. -/
theorem validationSummary_vacuous_verdict (s : ValidationSummary) (θ : ℚ)
    (h : s.total_checks = 0) : s.is_valid θ = true := by
  unfold ValidationSummary.is_valid
  rw [if_pos h]

/-- Witness for `validationSummary_vacuous_verdict`: the fresh summary
at threshold 1. -/
theorem validationSummary_vacuous_verdict_witness :
    ValidationSummary.init.is_valid 1 = true :=
  validationSummary_vacuous_verdict ValidationSummary.init 1 rfl

/-! Section: Validator schemas and checks (`DataValidator`) -/

/-- A per-data-type validation schema (`DataValidator.schemas` entry);
absent dict keys (`schema.get(key, default)`) are empty lists. -/
structure VSchema where
  required_columns : List String
  numeric_columns : List String
  positive_columns : List String
  range_checks : List (String × Option ℚ × Option ℚ)
  consistency_checks : List (String × String)
deriving DecidableEq, Repr

/-- The schema used when a data type is unknown: `{}`, so every
`schema.get(...)` yields its empty default. -/
def emptySchema : VSchema := ⟨[], [], [], [], []⟩

/-- The `DataValidator.self.schemas` (lines 114-183). -/
def schemas (dt : String) : Option VSchema :=
  if dt = "stock" then some
    ⟨["timestamp", "symbol", "open", "high", "low", "close", "volume"],
     ["open", "high", "low", "close", "volume", "adj_close"],
     ["open", "high", "low", "close", "volume"],
     [("open", some 0, some 1000000), ("high", some 0, some 1000000),
      ("low", some 0, some 1000000), ("close", some 0, some 1000000),
      ("volume", some 0, some 1000000000000), ("adj_close", some 0, some 1000000)],
     [("high >= low", "High price should be >= low price"),
      ("high >= open", "High price should be >= open price"),
      ("high >= close", "High price should be >= close price"),
      ("low <= open", "Low price should be <= open price"),
      ("low <= close", "Low price should be <= close price")]⟩
  else if dt = "crypto" then some
    ⟨["timestamp", "symbol", "open", "high", "low", "close", "volume", "exchange"],
     ["open", "high", "low", "close", "volume"],
     ["open", "high", "low", "close", "volume"],
     [("open", some 0, some 1000000), ("high", some 0, some 1000000),
      ("low", some 0, some 1000000), ("close", some 0, some 1000000),
      ("volume", some 0, some 1000000000000000)],
     []⟩
  else if dt = "forex" then some
    ⟨["timestamp", "symbol", "open", "high", "low", "close"],
     ["open", "high", "low", "close"],
     ["open", "high", "low", "close"],
     [("open", some (1 / 10000), some 1000), ("high", some (1 / 10000), some 1000),
      ("low", some (1 / 10000), some 1000), ("close", some (1 / 10000), some 1000)],
     []⟩
  else if dt = "economic" then some
    ⟨["timestamp", "series_id", "value"],
     ["value"], [],
     [("value", some (-1000000000000), some 1000000000000)],
     []⟩
  else if dt = "weather" then some
    ⟨["timestamp", "location", "temperature", "humidity", "pressure", "wind_speed"],
     ["temperature", "humidity", "pressure", "wind_speed"], [],
     [("temperature", some (-100), some 100), ("humidity", some 0, some 100),
      ("pressure", some 800, some 1100), ("wind_speed", some 0, some 150)],
     []⟩
  else if dt = "sentiment" then some
    ⟨["timestamp", "entity", "sentiment_score", "confidence"],
     ["sentiment_score", "confidence"], [],
     [("sentiment_score", some (-1), some 1), ("confidence", some 0, some 1)],
     []⟩
  else none

/-- The `unique_constraints` of `_validate_uniqueness` (lines 592-599);
unknown data types have no key columns. -/
def uniqueConstraints (dt : String) : List String :=
  if dt = "stock" then ["timestamp", "symbol"]
  else if dt = "crypto" then ["timestamp", "symbol", "exchange"]
  else if dt = "forex" then ["timestamp", "symbol"]
  else if dt = "economic" then ["timestamp", "series_id"]
  else if dt = "weather" then ["timestamp", "location"]
  else if dt = "sentiment" then ["timestamp", "entity", "source"]
  else []

/-- The two thresholds the validator reads from its configuration
collaborator (`missing_value_threshold`, `anomaly_zscore_threshold`). -/
structure ValidatorConfig where
  missing_threshold : ℚ
  anomaly_threshold : ℚ
deriving DecidableEq, Repr

/-- Render a list of column names for a message (rendering of Python
list formatting is approximate; messages carry no verified content). -/
def fmtStrList (l : List String) : String :=
  "[" ++ String.intercalate ", " l ++ "]"

/-- The `df[col] < q` on one cell: `NaN`/non-numeric comparisons are
false, as in pandas. -/
def vLtQ : Value → ℚ → Bool
  | .num x, q => decide (x < q)
  | _, _ => false

/-- The `df[col] > q` on one cell. -/
def vGtQ : Value → ℚ → Bool
  | .num x, q => decide (q < x)
  | _, _ => false

/-- The `df[col] >= q` on one cell. -/
def vGeQ : Value → ℚ → Bool
  | .num x, q => decide (q ≤ x)
  | _, _ => false

/-- The `df[col] <= q` on one cell. -/
def vLeQ : Value → ℚ → Bool
  | .num x, q => decide (x ≤ q)
  | _, _ => false

/-- Cellwise `a < b` between two columns; false unless both numeric. -/
def pairLt : Value → Value → Bool
  | .num x, .num y => decide (x < y)
  | _, _ => false

/-- Cellwise `a > b` between two columns. -/
def pairGt (a b : Value) : Bool := pairLt b a

/-- The `_validate_schema` (lines 259-298): required columns present. -/
def validateSchemaCheck (df : DF) (schema : VSchema) (dt : String)
    (s : ValidationSummary) (now : ℚ) : ValidationSummary :=
  let missing := schema.required_columns.filter (fun c => !df.hasCol c)
  if missing.isEmpty then
    s.add_result ⟨"required_columns", ValidationLevel.info,
      "All required columns present",
      [("data_type", .s dt), ("required_columns", .ls schema.required_columns)],
      true, now⟩
  else
    s.add_result ⟨"required_columns", ValidationLevel.error,
      "Missing required columns: " ++ fmtStrList missing,
      [("data_type", .s dt), ("missing_columns", .ls missing),
       ("required_columns", .ls schema.required_columns)],
      false, now⟩

/-- The `_validate_missing_values` (lines 300-330). -/
def validateMissingValues (df : DF) (schema : VSchema) (cfg : ValidatorConfig)
    (s : ValidationSummary) (now : ℚ) : ValidationSummary :=
  schema.numeric_columns.foldl (fun s c =>
    if df.hasCol c then
      let missingCount := ((df.getCol c).filter Value.isNull).length
      let missingPct : ℚ :=
        if 0 < df.rows.length then (missingCount : ℚ) / (df.rows.length : ℚ) else 0
      if 0 < missingCount then
        s.add_result ⟨"missing_values_" ++ c,
          (if missingPct ≤ cfg.missing_threshold then ValidationLevel.warning
            else ValidationLevel.error),
          "Column " ++ c ++ " has missing values",
          [("column", .s c), ("missing_count", .n missingCount),
           ("missing_percentage", .n missingPct),
           ("threshold", .n cfg.missing_threshold)],
          decide (missingPct ≤ cfg.missing_threshold), now⟩
      else s
    else s) s

/-- The `pandas.to_numeric(·, errors="coerce")` on one cell. -/
def coerceNumeric : Value → Value
  | .num q => .num q
  | .str t => match parseQ t with
    | some q => .num q
    | none => .null
  | .time _ => .null
  | .null => .null

/-- The `_validate_data_types` (lines 332-359). -/
def validateDataTypes (df : DF) (schema : VSchema)
    (s : ValidationSummary) (now : ℚ) : ValidationSummary :=
  schema.numeric_columns.foldl (fun s c =>
    if df.hasCol c && !numericDtype (df.getCol c) then
      let cnt := ((df.getCol c).filter (fun v => (coerceNumeric v).isNull)).length
      s.add_result ⟨"data_type_" ++ c, ValidationLevel.error,
        "Column " ++ c ++ " has non-numeric values",
        [("column", .s c), ("non_numeric_count", .n cnt),
         ("expected_type", .s "numeric")],
        false, now⟩
    else s) s

/-- The `_validate_ranges` (lines 361-424): per-column min/max counts,
then the positivity checks. -/
def validateRanges (df : DF) (schema : VSchema)
    (s : ValidationSummary) (now : ℚ) : ValidationSummary :=
  let s1 := schema.range_checks.foldl (fun s rc =>
    let c := rc.1
    if df.hasCol c && numericDtype (df.getCol c) then
      let s2 := match rc.2.1 with
        | some mn =>
          let below := ((df.getCol c).filter (fun v => vLtQ v mn)).length
          if 0 < below then
            s.add_result ⟨"range_min_" ++ c, ValidationLevel.error,
              "Column " ++ c ++ " has values below minimum",
              [("column", .s c), ("below_min_count", .n below),
               ("minimum", .n mn)], false, now⟩
          else s
        | none => s
      match rc.2.2 with
      | some mx =>
        let above := ((df.getCol c).filter (fun v => vGtQ v mx)).length
        if 0 < above then
          s2.add_result ⟨"range_max_" ++ c, ValidationLevel.error,
            "Column " ++ c ++ " has values above maximum",
            [("column", .s c), ("above_max_count", .n above),
             ("maximum", .n mx)], false, now⟩
        else s2
      | none => s2
    else s) s
  schema.positive_columns.foldl (fun s c =>
    if df.hasCol c && numericDtype (df.getCol c) then
      let neg := ((df.getCol c).filter (fun v => vLtQ v 0)).length
      if 0 < neg then
        s.add_result ⟨"positive_values_" ++ c, ValidationLevel.error,
          "Column " ++ c ++ " has negative values",
          [("column", .s c), ("negative_count", .n neg)], false, now⟩
      else s
    else s) s1

/-- The `_validate_consistency` (lines 426-488): parse each condition on
`>=`/`<=` and count cellwise violations; malformed conditions are
skipped (the code catches the unpacking error and logs). -/
def validateConsistency (df : DF) (schema : VSchema)
    (s : ValidationSummary) (now : ℚ) : ValidationSummary :=
  schema.consistency_checks.foldl (fun s cd =>
    let condition := cd.1
    let desc := cd.2
    if pyContains condition ">=" then
      match pySplit condition ">=" with
      | [a, b] =>
        let c1 := pyStrip a
        let c2 := pyStrip b
        if df.hasCol c1 && df.hasCol c2 then
          let viol := (((df.getCol c1).zip (df.getCol c2)).filter
            (fun ab => pairLt ab.1 ab.2)).length
          if 0 < viol then
            s.add_result ⟨"consistency_" ++ c1 ++ "_gte_" ++ c2,
              ValidationLevel.error, desc ++ ": violations found",
              [("condition", .s condition), ("description", .s desc),
               ("violation_count", .n viol), ("columns", .ls [c1, c2])],
              false, now⟩
          else s
        else s
      | _ => s
    else if pyContains condition "<=" then
      match pySplit condition "<=" with
      | [a, b] =>
        let c1 := pyStrip a
        let c2 := pyStrip b
        if df.hasCol c1 && df.hasCol c2 then
          let viol := (((df.getCol c1).zip (df.getCol c2)).filter
            (fun ab => pairGt ab.1 ab.2)).length
          if 0 < viol then
            s.add_result ⟨"consistency_" ++ c1 ++ "_lte_" ++ c2,
              ValidationLevel.error, desc ++ ": violations found",
              [("condition", .s condition), ("description", .s desc),
               ("violation_count", .n viol), ("columns", .ls [c1, c2])],
              false, now⟩
          else s
        else s
      | _ => s
    else s) s

/-- Consecutive timestamp differences with `NaT` pairs dropped
(`series.diff().dropna()` on a datetime column). -/
def timeDiffs : List Value → List ℚ
  | [] => []
  | [_] => []
  | a :: b :: rest =>
    (match a, b with
     | .time x, .time y => [y - x]
     | _, _ => []) ++ timeDiffs (b :: rest)

/-- The `_validate_timestamps` (lines 490-543): null count, then the
`.dt` accessor — which raises unless the column is datetime-typed —
then future timestamps (more than one day past `now`) and
chronological order. -/
def validateTimestamps (df : DF) (s : ValidationSummary) (now : ℚ) :
    Except String ValidationSummary :=
  if !df.hasCol "timestamp" then .ok s
  else
    let vs := df.getCol "timestamp"
    let nullCnt := (vs.filter Value.isNull).length
    let s1 :=
      if 0 < nullCnt then
        s.add_result ⟨"null_timestamps", ValidationLevel.error,
          "Found null timestamps", [("null_count", .n nullCnt)], false, now⟩
      else s
    if !datetimeDtype vs then
      .error "Can only use .dt accessor with datetimelike values"
    else
      let future := (vs.filter (fun v =>
        match v with
        | .time t => decide (now + 86400 < t)
        | _ => false)).length
      let s2 :=
        if 0 < future then
          s1.add_result ⟨"future_timestamps", ValidationLevel.warning,
            "Found timestamps in the future",
            [("future_count", .n future)], true, now⟩
        else s1
      if 1 < df.rows.length then
        let nonChrono := ((timeDiffs vs).filter (fun d => decide (d ≤ 0))).length
        if 0 < nonChrono then
          .ok (s2.add_result ⟨"chronological_order", ValidationLevel.warning,
            "Found non-chronological timestamps",
            [("non_chronological_count", .n nonChrono)], true, now⟩)
        else .ok s2
      else .ok s2

/-- The numeric entries of a column (`series.dropna()` on a numeric
column). -/
def numsOf (vs : List Value) : List ℚ :=
  vs.foldr (fun v acc =>
    match v with
    | .num q => q :: acc
    | _ => acc) []

/-- Sum of a list of rationals. -/
def sumQ (l : List ℚ) : ℚ := l.foldl (fun a b => a + b) 0

/-- The `_validate_anomalies` (lines 545-582).  The float comparison
`|x − mean| / std > threshold` with `std = √(sse/(n−1))` is embedded
exactly by cross-multiplied squares: for `threshold ≥ 0` it is
`(x − mean)² (n−1) > threshold² sse`, and a negative threshold is
below every (nonnegative) z-score. -/
def validateAnomalies (df : DF) (schema : VSchema) (cfg : ValidatorConfig)
    (s : ValidationSummary) (now : ℚ) : ValidationSummary :=
  schema.numeric_columns.foldl (fun s c =>
    if df.hasCol c && numericDtype (df.getCol c) then
      let values := numsOf (df.getCol c)
      if 2 < values.length then
        let n : ℚ := values.length
        let mean := sumQ values / n
        let sse := sumQ (values.map (fun x => (x - mean) ^ 2))
        if 0 < sse then
          let anom := (values.filter (fun x =>
            if cfg.anomaly_threshold < 0 then true
            else decide (cfg.anomaly_threshold ^ 2 * sse < (x - mean) ^ 2 * (n - 1)))).length
          if 0 < anom then
            s.add_result ⟨"anomalies_" ++ c, ValidationLevel.warning,
              "Found anomalies in column " ++ c,
              [("column", .s c), ("anomaly_count", .n anom),
               ("z_score_threshold", .n cfg.anomaly_threshold),
               ("mean", .n mean), ("std", .rt (sse / (n - 1)))],
              true, now⟩
          else s
        else s
      else s
    else s) s

/-- The `_validate_uniqueness` (lines 584-617): rows counted by
`duplicated(keep=False)` under the data type's key columns. -/
def validateUniqueness (df : DF) (dt : String)
    (s : ValidationSummary) (now : ℚ) : ValidationSummary :=
  let existing := (uniqueConstraints dt).filter (fun c => df.hasCol c)
  if !existing.isEmpty && 0 < df.rows.length then
    let keys := df.rows.map (fun r => existing.map (fun c => df.cellOf r c))
    let dup := (keys.filter (fun k => 2 ≤ keys.count k)).length
    if 0 < dup then
      s.add_result ⟨"duplicate_records", ValidationLevel.error,
        "Found duplicate records",
        [("duplicate_count", .n dup),
         ("unique_constraint_columns", .ls existing)], false, now⟩
    else s
  else s

/-- The `sort_values` order on a datetime column: by timestamp ascending,
nulls last (stable). -/
def tsLe : Value → Value → Bool
  | .time x, .time y => decide (x ≤ y)
  | .time _, _ => true
  | _, .time _ => false
  | _, _ => true

/-- pandas `Series.median()`: middle element, or the mean of the two
middle elements for an even count. -/
def medianQ (l : List ℚ) : ℚ :=
  let s := l.mergeSort (fun a b => decide (a ≤ b))
  let n := s.length
  if n % 2 = 1 then s.getD (n / 2) 0
  else (s.getD (n / 2 - 1) 0 + s.getD (n / 2) 0) / 2

/-- Maximum of a list of rationals (on a nonempty list). -/
def maxQD (l : List ℚ) : ℚ := l.foldl max (l.headD 0)

/-- The `_validate_completeness` (lines 619-656): gaps above twice the
median inter-observation interval.  Timedelta details are rendered as
seconds. -/
def validateCompleteness (df : DF) (s : ValidationSummary) (now : ℚ) :
    ValidationSummary :=
  if !df.hasCol "timestamp" || df.rows.length < 2 then s
  else
    let sorted := (df.getCol "timestamp").mergeSort tsLe
    let diffs := timeDiffs sorted
    if diffs.isEmpty then s
    else
      let med := medianQ diffs
      let gaps := diffs.filter (fun d => decide (2 * med < d))
      if !gaps.isEmpty then
        s.add_result ⟨"time_gaps", ValidationLevel.warning,
          "Found gaps in time series data",
          [("gap_count", .n gaps.length),
           ("total_gap_duration", .s (toString (sumQ gaps))),
           ("median_interval", .s (toString med)),
           ("largest_gap", .s (toString (maxQD gaps)))], true, now⟩
      else s

/-- One row's mask conjunct for one failed ERROR/CRITICAL result
(`_filter_invalid_rows`, lines 680-706). -/
def rowPassesCheck (df : DF) (r : List Value) (res : ValidationResult) : Bool :=
  if pyStartsWith res.check_name "range_min_" then
    let c := pyReplace res.check_name "range_min_" ""
    if df.hasCol c then
      match lookupAssoc "minimum" res.details with
      | some (.n mn) => vGeQ (df.cellOf r c) mn
      | _ => true
    else true
  else if pyStartsWith res.check_name "range_max_" then
    let c := pyReplace res.check_name "range_max_" ""
    if df.hasCol c then
      match lookupAssoc "maximum" res.details with
      | some (.n mx) => vLeQ (df.cellOf r c) mx
      | _ => true
    else true
  else if pyStartsWith res.check_name "positive_values_" then
    let c := pyReplace res.check_name "positive_values_" ""
    if df.hasCol c then vGeQ (df.cellOf r c) 0 else true
  else if res.check_name = "null_timestamps" then
    !(df.cellOf r "timestamp").isNull
  else true

/-- The `_filter_invalid_rows` (lines 658-720): drop the rows rejected by
any failed ERROR/CRITICAL check's mask; WARNING results contribute no
mask. -/
def filterInvalidRows (df : DF) (s : ValidationSummary) : DF :=
  if df.isEmpty then df
  else
    let critical := s.results.filter (fun res =>
      (decide (res.level = ValidationLevel.error)
        || decide (res.level = ValidationLevel.critical)) && !res.passed)
    if critical.isEmpty then df
    else { df with rows := df.rows.filter (fun r => critical.all (rowPassesCheck df r)) }

/-- The check pipeline of `validate_dataframe` after schema
resolution (lines 224-257), over an explicit schema. -/
def validate_dataframe_core (df : DF) (schema : VSchema) (dt : String)
    (cfg : ValidatorConfig) (level : ValidationLevel) (now : ℚ) :
    Except String (DF × ValidationSummary) :=
  let s := ValidationSummary.init
  let s := validateSchemaCheck df schema dt s now
  let s := validateMissingValues df schema cfg s now
  let s := validateDataTypes df schema s now
  let s := validateRanges df schema s now
  let s := validateConsistency df schema s now
  match validateTimestamps df s now with
  | .error e => .error e
  | .ok s =>
    let s := validateAnomalies df schema cfg s now
    let s := validateUniqueness df dt s now
    let s := validateCompleteness df s now
    let dfv :=
      if !s.isValidDefault && decide (level ≠ ValidationLevel.info) then
        filterInvalidRows df s
      else df
    .ok (dfv, s)

/-- The `DataValidator.validate_dataframe` (lines 185-257): empty input
short-circuits with a single failed `empty_dataframe` result; an
unknown data type falls back to the empty schema
(`self.schemas.get(data_type, {})`). -/
def validate_dataframe (df : DF) (dt : String) (cfg : ValidatorConfig)
    (level : ValidationLevel) (now : ℚ) :
    Except String (DF × ValidationSummary) :=
  if df.isEmpty then
    .ok (df, ValidationSummary.init.add_result
      ⟨"empty_dataframe", ValidationLevel.error, "DataFrame is empty",
       [("data_type", .s dt)], false, now⟩)
  else
    validate_dataframe_core df ((schemas dt).getD emptySchema) dt cfg level now

/-- Whether an embedded fallible call returned normally. -/
def exceptOk {α : Type} : Except String α → Bool
  | .ok _ => true
  | .error _ => false

/-- The summary results of a validation run (empty if it raised). -/
def vResultsOf : Except String (DF × ValidationSummary) → List ValidationResult
  | .ok p => p.2.results
  | .error _ => []

/-- The returned rows of a validation run (`none` if it raised). -/
def vRowsOf : Except String (DF × ValidationSummary) → Option (List (List Value))
  | .ok p => some p.1.rows
  | .error _ => none

/-- The default-threshold verdict of a validation run. -/
def vVerdictOf : Except String (DF × ValidationSummary) → Option Bool
  | .ok p => some p.2.isValidDefault
  | .error _ => none

/-- The forex batch of spec Scenario C: three rows, one with
`close = -1.2`; the third row is out of chronological order (a
WARNING-level finding) but otherwise clean. -/
def forexBatchC : DF :=
  ⟨["timestamp", "symbol", "open", "high", "low", "close"],
   [[.time 100, .str "EURUSD", .num 1, .num (6/5), .num (9/10), .num (11/10)],
    [.time 200, .str "EURUSD", .num 1, .num (6/5), .num (9/10), .num (-6/5)],
    [.time 150, .str "EURUSD", .num 1, .num (6/5), .num (9/10), .num (11/10)]]⟩

/-- Scenario C validated as forex at the default ERROR level, with
`missing_value_threshold = 0.3` and `anomaly_zscore_threshold = 3`. -/
def forexBatchCResult : Except String (DF × ValidationSummary) :=
  validate_dataframe forexBatchC "forex" ⟨3/10, 3⟩ ValidationLevel.error 1000000

/-- Claim C7: positivity finding and row filtering.  Validating the
Scenario C forex batch yields a failed ERROR-level result named
`positive_values_close` with `negative_count = 1`; the batch is judged
invalid at the default threshold; the offending row is absent from the
filtered output while the row implicated only by the WARNING-level
chronological-order finding is retained.  In general, a summary whose
results are all WARNING/INFO level or passed removes no rows. -/
theorem validator_positivity_and_filtering :
    (((vResultsOf forexBatchCResult).any (fun r =>
        r.check_name == "positive_values_close" && !r.passed
          && decide (r.level = ValidationLevel.error)
          && decide (lookupAssoc "negative_count" r.details = some (.n 1)))) = true ∧
      vVerdictOf forexBatchCResult = some false ∧
      vRowsOf forexBatchCResult = some
        [[.time 100, .str "EURUSD", .num 1, .num (6/5), .num (9/10), .num (11/10)],
         [.time 150, .str "EURUSD", .num 1, .num (6/5), .num (9/10), .num (11/10)]]) ∧
    (∀ (df : DF) (s : ValidationSummary),
      (∀ r ∈ s.results, r.level = ValidationLevel.warning
          ∨ r.level = ValidationLevel.info ∨ r.passed = true) →
      filterInvalidRows df s = df) := by
  constructor
  · with_unfolding_all decide
  · intro df s h
    have hc : s.results.filter (fun res =>
        (decide (res.level = ValidationLevel.error)
          || decide (res.level = ValidationLevel.critical)) && !res.passed) = [] := by
      rw [List.filter_eq_nil_iff]
      intro res hres
      rcases h res hres with h1 | h1 | h1 <;> simp [h1]
    simp [filterInvalidRows, hc]

/-- Witness for `validator_positivity_and_filtering`: a summary of one
passed result removes no rows from a one-row frame. -/
theorem validator_positivity_and_filtering_witness :
    filterInvalidRows ⟨["close"], [[.num 1]]⟩
      (summaryOf [⟨"anomalies_close", ValidationLevel.warning, "", [], true, 0⟩])
      = ⟨["close"], [[.num 1]]⟩ :=
  validator_positivity_and_filtering.2 ⟨["close"], [[.num 1]]⟩
    (summaryOf [⟨"anomalies_close", ValidationLevel.warning, "", [], true, 0⟩])
    (by with_unfolding_all decide)

/-- Claim C6, counterexample.  (i) A one-row frame whose `timestamp`
column holds a string makes `validate_dataframe` raise (the `.dt`
accessor in `_validate_timestamps` requires a datetime column), so
validation does *not* return a pair for every input — it can raise
because of the data's contents.  (ii) For a data type with no declared
schema (`"futures"`), the required-columns check is not skipped: it
runs against the empty schema and records a passed result. -/
theorem validator_totality_counterexample :
    exceptOk (validate_dataframe ⟨["timestamp"], [[.str "oops"]]⟩ "stock"
      ⟨3/10, 3⟩ ValidationLevel.error 0) = false ∧
    ((vResultsOf (validate_dataframe
        ⟨["timestamp", "open"], [[.time 100, .num 1], [.time 200, .num 2]]⟩
        "futures" ⟨3/10, 3⟩ ValidationLevel.error 1000000)).any (fun r =>
          r.check_name == "required_columns" && r.passed)) = true := by
  with_unfolding_all decide

theorem validateTimestamps_ok (df : DF) (s : ValidationSummary) (now : ℚ)
    (h : df.hasCol "timestamp" = false
      ∨ datetimeDtype (df.getCol "timestamp") = true) :
    exceptOk (validateTimestamps df s now) = true := by
  unfold validateTimestamps
  rcases h with h | h
  · simp [h, exceptOk]
  · by_cases h2 : df.hasCol "timestamp"
    · simp only [h2, h, Bool.not_true, Bool.false_eq_true, if_false]
      split_ifs <;> rfl
    · simp only [Bool.not_eq_true] at h2
      simp [h2, exceptOk]

/-- Claim C6 (amended): the validator never raises because of the
data's contents *provided* the `timestamp` column, when present, is
datetime-typed (a non-datetime `timestamp` column makes the timestamp
checks raise), and it then returns a (record set, summary) pair.  When
the data_type has no declared schema it behaves exactly as if the
schema were empty: ranges, positivity, consistency, anomaly,
missing-value and type checks produce no findings, the
required-columns check still runs and records a vacuous passed INFO
result, the uniqueness check has no key columns for an unknown type,
and the structural, timestamp and completeness checks still run. -/
theorem validator_unknown_type_and_totality :
    (∀ (df : DF) (dt : String) (cfg : ValidatorConfig)
        (level : ValidationLevel) (now : ℚ),
      schemas dt = none → df.isEmpty = false →
      validate_dataframe df dt cfg level now
        = validate_dataframe_core df emptySchema dt cfg level now) ∧
    (∀ dt : String, schemas dt = none → uniqueConstraints dt = []) ∧
    (∀ (df : DF) (dt : String) (cfg : ValidatorConfig)
        (level : ValidationLevel) (now : ℚ),
      df.hasCol "timestamp" = false
        ∨ datetimeDtype (df.getCol "timestamp") = true →
      exceptOk (validate_dataframe df dt cfg level now) = true) ∧
    ((vResultsOf (validate_dataframe
        ⟨["timestamp", "open"], [[.time 100, .num 1], [.time 200, .num 2]]⟩
        "futures" ⟨3/10, 3⟩ ValidationLevel.error 1000000)).map (fun r =>
          (r.check_name, r.passed, r.level))) =
      [("required_columns", true, ValidationLevel.info)] := by
  refine ⟨?_, ?_, ?_, by with_unfolding_all decide⟩
  · intro df dt cfg level now h hne
    simp [validate_dataframe, hne, h]
  · intro dt h
    unfold uniqueConstraints
    split_ifs with h1 h2 h3 h4 h5 h6 <;> simp_all [schemas]
  · intro df dt cfg level now h
    unfold validate_dataframe
    by_cases he : df.isEmpty
    · simp [he, exceptOk]
    · simp only [Bool.not_eq_true] at he
      simp only [he, Bool.false_eq_true, if_false]
      simp only [validate_dataframe_core]
      cases hts : validateTimestamps df
        (validateConsistency df ((schemas dt).getD emptySchema)
          (validateRanges df ((schemas dt).getD emptySchema)
            (validateDataTypes df ((schemas dt).getD emptySchema)
              (validateMissingValues df ((schemas dt).getD emptySchema) cfg
                (validateSchemaCheck df ((schemas dt).getD emptySchema) dt
                  ValidationSummary.init now) now) now) now) now) now with
      | error e =>
        have hok := validateTimestamps_ok df
          (validateConsistency df ((schemas dt).getD emptySchema)
            (validateRanges df ((schemas dt).getD emptySchema)
              (validateDataTypes df ((schemas dt).getD emptySchema)
                (validateMissingValues df ((schemas dt).getD emptySchema) cfg
                  (validateSchemaCheck df ((schemas dt).getD emptySchema) dt
                    ValidationSummary.init now) now) now) now) now) now h
        rw [hts] at hok
        simp [exceptOk] at hok
      | ok s2 => rfl

/-- Witness for `validator_unknown_type_and_totality` at concrete
inputs: an unregistered data type `"futures"` and a frame without a
`timestamp` column. -/
theorem validator_unknown_type_and_totality_witness :
    validate_dataframe ⟨["open"], [[.num 1]]⟩ "futures" ⟨3/10, 3⟩
        ValidationLevel.error 5
      = validate_dataframe_core ⟨["open"], [[.num 1]]⟩ emptySchema "futures"
        ⟨3/10, 3⟩ ValidationLevel.error 5 ∧
    uniqueConstraints "futures" = [] ∧
    exceptOk (validate_dataframe ⟨["open"], [[.num 1]]⟩ "stock" ⟨3/10, 3⟩
      ValidationLevel.error 5) = true :=
  ⟨validator_unknown_type_and_totality.1 ⟨["open"], [[.num 1]]⟩ "futures"
      ⟨3/10, 3⟩ ValidationLevel.error 5 (by with_unfolding_all decide)
      (by with_unfolding_all decide),
   validator_unknown_type_and_totality.2.1 "futures"
      (by with_unfolding_all decide),
   validator_unknown_type_and_totality.2.2.1 ⟨["open"], [[.num 1]]⟩ "stock"
      ⟨3/10, 3⟩ ValidationLevel.error 5
      (Or.inl (by with_unfolding_all decide))⟩

/-! Section: Standardizer (`src/transform/standardizer.py`)

`DataStandardizer.standardize_dataframe` is an eight-step pipeline
over a frame.  `default_currency` is read from the configuration
collaborator (bundled default `"USD"`), so it is an explicit
parameter; `standardized_at` stamps the explicit `now`. -/

/-- The `df[c] = vs`: replace the column in place, or append it on the
right when absent (pandas column assignment). -/
def DF.setCol (df : DF) (c : String) (vs : List Value) : DF :=
  match df.cols.indexOf? c with
  | some i => { df with rows := (df.rows.zip vs).map (fun rv => rv.1.set i rv.2) }
  | none => { cols := df.cols ++ [c],
              rows := (df.rows.zip vs).map (fun rv => rv.1 ++ [rv.2]) }

/-- The `df[c] = v` with a scalar broadcast. -/
def DF.setColConst (df : DF) (c : String) (v : Value) : DF :=
  df.setCol c (df.rows.map (fun _ => v))

/-- The `df.drop(columns=[c])` (no-op when absent; the embedded call
sites only drop existing columns). -/
def DF.dropCol (df : DF) (c : String) : DF :=
  match df.cols.indexOf? c with
  | some i => { cols := df.cols.eraseIdx i,
                rows := df.rows.map (fun r => r.eraseIdx i) }
  | none => df

/-- The `df[ordered_cols]`: project onto the given columns, in order. -/
def DF.selectCols (df : DF) (cs : List String) : DF :=
  ⟨cs, df.rows.map (fun r => cs.map (fun c => df.cellOf r c))⟩

/-- The `DataStandardizer.column_standardization` (lines 23-58). -/
def column_standardization : List (String × List String) :=
  [("timestamp", ["timestamp", "time", "datetime", "date_time"]),
   ("date", ["date", "trade_date", "transaction_date"]),
   ("time", ["time", "trade_time"]),
   ("open", ["open", "open_price", "opening_price"]),
   ("high", ["high", "high_price", "highest_price"]),
   ("low", ["low", "low_price", "lowest_price"]),
   ("close", ["close", "close_price", "closing_price", "price"]),
   ("volume", ["volume", "trade_volume", "vol"]),
   ("symbol", ["symbol", "ticker", "instrument", "pair"]),
   ("exchange", ["exchange", "venue", "market"]),
   ("adj_close", ["adj_close", "adjusted_close", "adjusted_closing_price"]),
   ("dividend", ["dividend", "dividend_amount"]),
   ("split", ["split", "split_coefficient"]),
   ("value", ["value", "observation", "measure"]),
   ("series_id", ["series_id", "series_code", "indicator_id"]),
   ("temperature", ["temperature", "temp"]),
   ("humidity", ["humidity", "relative_humidity"]),
   ("pressure", ["pressure", "air_pressure"]),
   ("wind_speed", ["wind_speed", "wind_velocity"]),
   ("sentiment_score", ["sentiment_score", "sentiment", "polarity"]),
   ("confidence", ["confidence", "confidence_score"])]

/-- The `DataStandardizer.standard_dtypes` (lines 61-83). -/
def standard_dtypes : List (String × String) :=
  [("timestamp", "datetime64[ns, UTC]"), ("date", "datetime64[ns]"),
   ("time", "object"), ("open", "float64"), ("high", "float64"),
   ("low", "float64"), ("close", "float64"), ("volume", "int64"),
   ("symbol", "object"), ("exchange", "object"), ("adj_close", "float64"),
   ("dividend", "float64"), ("split", "float64"), ("value", "float64"),
   ("series_id", "object"), ("temperature", "float64"),
   ("humidity", "float64"), ("pressure", "float64"),
   ("wind_speed", "float64"), ("sentiment_score", "float64"),
   ("confidence", "float64")]

/-- The `DataStandardizer.time_granularity_map` (lines 86-90). -/
def time_granularity_map : List (String × String) :=
  [("1m", "1T"), ("5m", "5T"), ("15m", "15T"), ("30m", "30T"),
   ("1h", "1H"), ("2h", "2H"), ("4h", "4H"), ("6h", "6H"),
   ("1d", "1D"), ("1w", "1W"), ("1M", "1M"), ("1q", "1Q"), ("1y", "1Y")]

/-- The `DataStandardizer.currency_rates` (lines 93-103). -/
def currency_rates : List (String × ℚ) :=
  [("USD", 1), ("EUR", 17/20), ("GBP", 73/100), ("JPY", 110),
   ("CAD", 5/4), ("AUD", 27/20), ("CHF", 23/25), ("CNY", 129/20),
   ("INR", 75)]

/-- The `DataStandardizer.symbol_standardization` (lines 106-119). -/
def symbol_standardization : List (String × String) :=
  [("AAPL.O", "AAPL"), ("AAPL.US", "AAPL"), ("MSFT.O", "MSFT"),
   ("MSFT.US", "MSFT"), ("GOOGL.O", "GOOGL"), ("GOOGL.US", "GOOGL"),
   ("BTC-USD", "BTCUSDT"), ("BTC/USD", "BTCUSDT"),
   ("ETH-USD", "ETHUSDT"), ("ETH/USD", "ETHUSDT"),
   ("EUR/USD", "EURUSD"), ("GBP/USD", "GBPUSD"),
   ("USD/JPY", "USDJPY"), ("AUD/USD", "AUDUSD")]

/-- The exchange suffix list of `_standardize_symbols` (line 344). -/
def exchange_suffixes : List String :=
  [".US", ".O", ".N", ".TO", ".V", ".AX", ".L", ".DE"]

/-- The alias mapping built by `_standardize_column_names`
(lines 194-201): for each canonical name, the *first* alias that is a
column of the frame — matched case-sensitively, exactly as
`possible_name in df_std.columns` — maps to the canonical name;
later table entries overwrite earlier bindings of the same alias
(dict assignment). -/
def buildColumnMapping (df : DF) : List (String × String) :=
  column_standardization.foldl (fun mapping p =>
    match p.2.find? (fun possible => df.hasCol possible) with
    | some possible => insertAssoc possible p.1 mapping
    | none => mapping) []

/-- The lowercase/underscore/alnum-strip fallback of
`_standardize_column_names` (lines 212-222). -/
def cleanColName (c : String) : String :=
  String.mk (((pyLower c).toList.map (fun ch =>
    if ch = ' ' then '_' else if ch = '-' then '_' else ch)).filter
      (fun ch => ch.isAlphanum || ch = '_'))

/-- The `_standardize_column_names` (lines 187-224): rename via the alias
mapping, then clean every column name. -/
def standardizeColumnNames (df : DF) : DF :=
  let mapping := buildColumnMapping df
  { df with cols := df.cols.map (fun c =>
      cleanColName ((lookupAssoc c mapping).getD c)) }

/-- Parse an ISO `YYYY-MM-DD[ HH:MM:SS]` literal to epoch seconds —
the embedding of `pandas.to_datetime` on the string layouts the
embedded sources produce. -/
def parseDT (s : String) : Option ℚ :=
  let l := s.toList
  let parts :=
    if pyContains s "T" then pySplit s "T"
    else if pyContains s " " then pySplit s " " else [s]
  let parseDate := fun (d : String) =>
    match (splitCharsFuel (d.toList.length + 1) ['-'] [] d.toList).map digitsToNat with
    | [some y, some m, some d] =>
      if 1 ≤ m ∧ m ≤ 12 ∧ 1 ≤ d ∧ d ≤ 31 then
        some ((daysFromCivil y m d : ℚ) * 86400)
      else none
    | _ => none
  let parseTod := fun (t : String) =>
    match (splitCharsFuel (t.toList.length + 1) [':'] [] t.toList).map digitsToNat with
    | [some h, some m, some sec] => some ((h : ℚ) * 3600 + (m : ℚ) * 60 + sec)
    | [some h, some m] => some ((h : ℚ) * 3600 + (m : ℚ) * 60)
    | _ => none
  match parts, l with
  | [d], _ => parseDate d
  | [d, t], _ =>
    match parseDate d, parseTod t with
    | some base, some tod => some (base + tod)
    | _, _ => none
  | _, _ => none

/-- The `pandas.to_datetime(·, errors="coerce", utc=True)` on one cell;
a bare number is nanoseconds since the epoch (pandas default unit). -/
def toDatetimeCoerce : Value → Value
  | .time t => .time t
  | .str s => match parseDT s with
    | some t => .time t
    | none => .null
  | .num q => .time (q / 1000000000)
  | .null => .null

/-- The `astype(str)` on one cell (`NaN` prints as `"nan"`; numeric
rendering is approximate and unexercised by the embedded claims). -/
def valueToStr : Value → String
  | .str s => s
  | .null => "nan"
  | .num q => if q.den = 1 then toString q.num ++ ".0" else toString q
  | .time t => formatTimestamp t

/-- The `_standardize_data_types` (lines 226-258): per-column conversion
by declared dtype.  For `int64`, `astype("Int64")` either keeps the
already-integral numbers or raises and is caught, leaving the
`to_numeric` result — in both cases the numeric conversion. -/
def standardizeDataTypes (df : DF) : DF :=
  standard_dtypes.foldl (fun df p =>
    if df.hasCol p.1 then
      if pyContains p.2 "datetime" then
        df.setCol p.1 ((df.getCol p.1).map toDatetimeCoerce)
      else if p.2 = "float64" then
        df.setCol p.1 ((df.getCol p.1).map coerceNumeric)
      else if p.2 = "int64" then
        df.setCol p.1 ((df.getCol p.1).map coerceNumeric)
      else if p.2 = "object" then
        df.setCol p.1 ((df.getCol p.1).map (fun v => .str (valueToStr v)))
      else df
    else df) df

/-- A cell accepted by the Unix-milliseconds fallback of
`_standardize_time_data`: `pd.to_numeric` (without `coerce`) succeeds
on numbers, nulls and numeric strings, and raises otherwise. -/
def msFallbackOk : Value → Bool
  | .num _ => true
  | .null => true
  | .str s => (parseQ s).isSome
  | .time _ => true

/-- A timestamp component column: `f` of the epoch timestamp, null on
`NaT`. -/
def tsCompI (f : ℚ → Int) : Value → Value
  | .time t => .num ((f t : ℚ))
  | _ => .null

/-- The `_standardize_time_data` (lines 260-327): pick the first of
`timestamp`/`date`/`datetime` as the primary time column; convert it
to UTC timestamps (an unparseable string raises and the enclosing
`try/except` returns the frame unchanged); retry nulls as Unix
milliseconds; derive the date-component columns; drop the primary
column when it is not `timestamp` itself. -/
def standardizeTimeData (df : DF) : DF :=
  match (["timestamp", "date", "datetime"].filter (fun c => df.hasCol c)) with
  | [] => df
  | primary :: _ =>
    let vals := df.getCol primary
    if !vals.all (fun v =>
        match v with
        | .str s => (parseDT s).isSome
        | _ => true) then df
    else
      let ts0 := vals.map toDatetimeCoerce
      let ts :=
        if ts0.any Value.isNull then
          let pairs := vals.zip ts0
          if pairs.all (fun p => !p.2.isNull || msFallbackOk p.1) then
            pairs.map (fun p =>
              if p.2.isNull then
                match coerceNumeric p.1 with
                | .num n => .time (n / 1000)
                | _ => Value.null
              else p.2)
          else ts0
        else ts0
      let df1 := df.setCol "timestamp" ts
      let df2 := df1.setCol "date" (ts.map (fun v =>
        match v with
        | .time t => .str (formatDate t)
        | _ => Value.null))
      let df3 := df2.setCol "year" (ts.map (tsCompI (fun t => (civilFromDays (epochDay t)).1)))
      let df4 := df3.setCol "month" (ts.map (tsCompI (fun t => (civilFromDays (epochDay t)).2.1)))
      let df5 := df4.setCol "day" (ts.map (tsCompI (fun t => (civilFromDays (epochDay t)).2.2)))
      let df6 := df5.setCol "hour" (ts.map (tsCompI (fun t => secondOfDay t / 3600)))
      let df7 := df6.setCol "minute" (ts.map (tsCompI (fun t => secondOfDay t % 3600 / 60)))
      let df8 := df7.setCol "day_of_week" (ts.map (tsCompI (fun t => dayOfWeekM (epochDay t))))
      let df9 := df8.setCol "day_of_year" (ts.map (tsCompI (fun t =>
        let c := civilFromDays (epochDay t)
        dayOfYear c.1 c.2.1 c.2.2)))
      let df10 := df9.setCol "week_of_year" (ts.map (tsCompI (fun t =>
        let c := civilFromDays (epochDay t)
        isoWeek c.1 c.2.1 c.2.2)))
      if primary ≠ "timestamp" then df10.dropCol primary else df10

/-- The `_standardize_symbols` (lines 329-367): uppercase and trim, strip
each exchange suffix as a substring (in list order, matching
`str.replace`), apply the symbol alias table, then the
crypto/forex-specific normalizations. -/
def standardizeSymbols (df : DF) (dt : String) : DF :=
  if !df.hasCol "symbol" then df
  else
    let step1 := (df.getCol "symbol").map (fun v => pyStrip (pyUpper (valueToStr v)))
    let step2 := exchange_suffixes.foldl
      (fun vs suf => vs.map (fun s => pyReplace s suf "")) step1
    let step3 := step2.map (fun s => (lookupAssoc s symbol_standardization).getD s)
    let step4 :=
      if dt = "crypto" then
        (step3.map (fun s => pyReplace (pyReplace s "-" "") "/" "")).map (fun s =>
          if !pyEndsWith s "USDT" && s.toList.length ≤ 6 then s ++ "USDT" else s)
      else if dt = "forex" then step3.map (fun s => pyReplace s "/" "")
      else step3
    df.setCol "symbol" (step4.map Value.str)

/-- The `unit_mappings` replace table of `_standardize_currencies_units`
for economic data (lines 418-428). -/
def unit_mappings : List (String × String) :=
  [("percent", "percentage"), ("pct", "percentage"), ("%", "percentage"),
   ("us dollars", "usd"), ("dollars", "usd"), ("$", "usd"),
   ("euros", "eur"), ("pounds", "gbp"), ("yens", "jpy")]

/-- The `convert_to_usd` of `_standardize_currencies_units` on one cell:
null value or null currency pass through; otherwise divide by the
static rate (unknown currencies rate 1, i.e. unchanged). -/
def convertCurrencyCell (v cur : Value) : Value :=
  match v, cur with
  | .num x, .null => .num x
  | .num x, c =>
    let rate := (lookupAssoc (pyUpper (valueToStr c)) currency_rates).getD 1
    if rate ≠ 1 then .num (x / rate) else .num x
  | v, _ => v

/-- The `_standardize_currencies_units` (lines 369-432).  The weather
branch runs the temperature conversion first; it overwrites the whole
`units` column with `"metric"`, so the subsequent wind-speed mask over
`units == "imperial"` matches nothing — embedded sequentially,
exactly as the code runs. -/
def standardizeCurrenciesUnits (df : DF) (dt : String)
    (defaultCurrency : String) : DF :=
  let df1 :=
    if df.hasCol "currency" then
      let conv := ["open", "high", "low", "close", "adj_close", "value"].foldl
        (fun df c =>
          if df.hasCol c then
            df.setCol c (((df.getCol c).zip (df.getCol "currency")).map
              (fun p => convertCurrencyCell p.1 p.2))
          else df) df
      conv.setColConst "currency" (.str defaultCurrency)
    else df
  if dt = "weather" then
    let df2 :=
      if df1.hasCol "temperature" && df1.hasCol "units" then
        let t := df1.setCol "temperature"
          (((df1.getCol "temperature").zip (df1.getCol "units")).map (fun p =>
            match p.1, p.2 with
            | .num x, .str "imperial" => .num ((x - 32) * 5 / 9)
            | v, _ => v))
        t.setColConst "units" (.str "metric")
      else df1
    if df2.hasCol "wind_speed" && df2.hasCol "units" then
      df2.setCol "wind_speed"
        (((df2.getCol "wind_speed").zip (df2.getCol "units")).map (fun p =>
          match p.1, p.2 with
          | .num x, .str "imperial" => .num (x * (44704 / 100000))
          | v, _ => v))
    else df2
  else if dt = "economic" then
    if df1.hasCol "units" then
      df1.setCol "units" ((df1.getCol "units").map (fun v =>
        match v with
        | .str s =>
          let cleaned := pyLower (pyStrip s)
          .str ((lookupAssoc cleaned unit_mappings).getD cleaned)
        | v => v))
    else df1
  else df1

/-- The granularity detection ladder of `_standardize_time_granularity`
(lines 452-469), on a median interval in seconds. -/
def detectGranularity (med : ℚ) : String :=
  if med ≤ 60 then "1m"
  else if med ≤ 300 then "5m"
  else if med ≤ 900 then "15m"
  else if med ≤ 1800 then "30m"
  else if med ≤ 3600 then "1h"
  else if med ≤ 86400 then "1d"
  else if med ≤ 604800 then "1w"
  else if med ≤ 2592000 then "1M"
  else "custom"

/-- The `_get_target_granularity` (lines 482-492). -/
def targetGranularity (dt : String) : Option String :=
  if dt = "stock" then some "1d"
  else if dt = "crypto" then some "1h"
  else if dt = "forex" then some "1h"
  else if dt = "economic" then some "1d"
  else if dt = "weather" then some "1h"
  else if dt = "sentiment" then some "1d"
  else none

/-- Aggregation rules of `_resample_to_granularity` (lines 507-538). -/
def aggRulesFor (dt : String) : Option (List (String × String)) :=
  if dt = "stock" ∨ dt = "crypto" ∨ dt = "forex" then some
    [("open", "first"), ("high", "max"), ("low", "min"), ("close", "last"),
     ("volume", "sum"), ("symbol", "first"), ("exchange", "first")]
  else if dt = "economic" then some [("value", "last"), ("series_id", "first")]
  else if dt = "weather" then some
    [("temperature", "mean"), ("humidity", "mean"), ("pressure", "mean"),
     ("wind_speed", "mean"), ("location", "first")]
  else if dt = "sentiment" then some
    [("sentiment_score", "mean"), ("confidence", "mean"), ("entity", "first")]
  else none

/-- Seconds per fixed-length pandas offset alias.  Only `1D` and `1H`
are reachable as resample targets (`_get_target_granularity`); the
calendar-length aliases return `none` and surface as the resample
failure path. -/
def periodSeconds (freq : String) : Option ℚ :=
  if freq = "1T" then some 60
  else if freq = "5T" then some 300
  else if freq = "15T" then some 900
  else if freq = "30T" then some 1800
  else if freq = "1H" then some 3600
  else if freq = "2H" then some 7200
  else if freq = "4H" then some 14400
  else if freq = "6H" then some 21600
  else if freq = "1D" then some 86400
  else none

/-- One `groupby.agg` cell (pandas semantics: `first`/`last` take the
first/last non-null, `max`/`min`/`mean` skip nulls and give null on an
all-null group, `sum` skips nulls and gives 0 on an all-null group). -/
def aggregateCell (how : String) (vs : List Value) : Value :=
  if how = "first" then ((vs.filter (fun v => !v.isNull)).headD Value.null)
  else if how = "last" then ((vs.filter (fun v => !v.isNull)).getLastD Value.null)
  else if how = "max" then
    match numsOf vs with
    | [] => Value.null
    | q :: qs => .num (qs.foldl max q)
  else if how = "min" then
    match numsOf vs with
    | [] => Value.null
    | q :: qs => .num (qs.foldl min q)
  else if how = "sum" then .num (sumQ (numsOf vs))
  else if how = "mean" then
    match numsOf vs with
    | [] => Value.null
    | q :: qs => .num (sumQ (q :: qs) / (q :: qs).length)
  else Value.null

/-- The `_resample_to_granularity` (lines 494-569): set the timestamp
index (rows with `NaT` are dropped by `resample`), bucket by
fixed-length periods from the epoch, aggregate each bucket —
including the empty buckets pandas materializes between the first and
last — reset the index and stamp the new granularity.  Failures
(unknown frequency) return the input frame, as the `except` branch
does. -/
def resampleToGranularity (df : DF) (target : String) (dt : String) : DF :=
  if !df.hasCol "timestamp" then df
  else
    match aggRulesFor dt with
    | none => df
    | some rules0 =>
      let rules := rules0.filter (fun p => df.hasCol p.1)
      match lookupAssoc target time_granularity_map with
      | none => df
      | some freq =>
        match periodSeconds freq with
        | none => df
        | some per =>
          let rowsT := df.rows.filterMap (fun r =>
            match df.cellOf r "timestamp" with
            | .time t => some (⌊t / per⌋, r)
            | _ => none)
          if rowsT.isEmpty then
            ⟨"timestamp" :: rules.map (fun p => p.1) ++ ["granularity"], []⟩
          else
            let keys := rowsT.map (fun p => p.1)
            let lo := keys.foldl min (keys.headD 0)
            let hi := keys.foldl max (keys.headD 0)
            let buckets := (List.range (hi - lo + 1).toNat).map (fun i => lo + (i : Int))
            let outRows := buckets.map (fun b =>
              let group := (rowsT.filter (fun p => p.1 = b)).map (fun p => p.2)
              Value.time ((b : ℚ) * per) ::
                rules.map (fun p =>
                  aggregateCell p.2 (group.map (fun r => df.cellOf r p.1)))
                ++ [Value.str target])
            ⟨"timestamp" :: rules.map (fun p => p.1) ++ ["granularity"], outRows⟩

/-- The `_standardize_time_granularity` (lines 434-480): detect the
observed granularity from the median of consecutive timestamp
differences (in frame order), stamp it, and resample when it differs
from the data type's target. -/
def standardizeTimeGranularity (df : DF) (dt : String) : DF :=
  if !df.hasCol "timestamp" then df
  else
    let df1 :=
      if 1 < df.rows.length then
        let diffs := timeDiffs (df.getCol "timestamp")
        if !diffs.isEmpty then
          df.setColConst "granularity" (.str (detectGranularity (medianQ diffs)))
        else df
      else df
    match targetGranularity dt with
    | some target =>
      if df1.hasCol "granularity" then
        match (df1.getCol "granularity").head? with
        | some v =>
          if v ≠ Value.str target then resampleToGranularity df1 target dt
          else df1
        | none => df1
      else df1
    | none => df1

/-- The required-column table of `_ensure_required_columns`
(lines 577-584). -/
def requiredColumnsStd (dt : String) : List String :=
  if dt = "stock" then ["timestamp", "symbol", "open", "high", "low", "close", "volume"]
  else if dt = "crypto" then ["timestamp", "symbol", "open", "high", "low", "close", "volume", "exchange"]
  else if dt = "forex" then ["timestamp", "symbol", "open", "high", "low", "close"]
  else if dt = "economic" then ["timestamp", "series_id", "value"]
  else if dt = "weather" then ["timestamp", "location", "temperature", "humidity", "pressure", "wind_speed"]
  else if dt = "sentiment" then ["timestamp", "entity", "sentiment_score", "confidence"]
  else []

/-- The `_ensure_required_columns` (lines 571-598): backfill each missing
required column with nulls. -/
def ensureRequiredColumns (df : DF) (dt : String) : DF :=
  (requiredColumnsStd dt).foldl (fun df c =>
    if !df.hasCol c then df.setColConst c Value.null else df) df

/-- Keep only the last row of each duplicate-key group, in position
order (`drop_duplicates(subset=..., keep="last")`). -/
def dedupKeepLast (key : List Value → List Value) :
    List (List Value) → List (List Value)
  | [] => []
  | r :: rest =>
    if rest.any (fun r2 => key r2 = key r) then dedupKeepLast key rest
    else r :: dedupKeepLast key rest

/-- The `_finalize_dataframe` (lines 600-657): sort by timestamp,
deduplicate on the natural-key columns keeping the last occurrence,
stamp `standardized_at`/`data_type`, and reorder columns (time-bearing
first, metadata last). -/
def finalizeDataframe (df : DF) (dt : String) (now : ℚ) : DF :=
  if df.isEmpty then df
  else
    let df1 :=
      if df.hasCol "timestamp" then
        { df with rows := df.rows.mergeSort (fun r1 r2 =>
            tsLe (df.cellOf r1 "timestamp") (df.cellOf r2 "timestamp")) }
      else df
    let dupCols := (["timestamp"]
      ++ (if df1.hasCol "symbol" then ["symbol"] else [])
      ++ (if df1.hasCol "series_id" then ["series_id"] else [])
      ++ (if df1.hasCol "location" then ["location"] else [])).filter
        (fun c => df1.hasCol c)
    let dedupRows :=
      dedupKeepLast (fun r => dupCols.map (fun c => df1.cellOf r c)) df1.rows
    let df2 := if !dupCols.isEmpty then { df1 with rows := dedupRows } else df1
    let df3 := df2.setColConst "standardized_at" (.time now)
    let df4 := df3.setColConst "data_type" (.str dt)
    let tsCols := df4.cols.filter (fun c => pyContains c "time" || pyContains c "date")
    let metaCols := ["standardized_at", "data_type", "granularity", "units"]
    let otherCols := df4.cols.filter (fun c =>
      !(tsCols.contains c) && !(metaCols.contains c))
    df4.selectCols (tsCols ++ otherCols
      ++ metaCols.filter (fun c => df4.cols.contains c))

/-- The `DataStandardizer.standardize_dataframe` (lines 121-185) with its
allocation behaviour made explicit: the Boolean is `true` when the
returned frame is a fresh object (the pipeline starts from
`df.copy()`), and `false` when the *input object itself* is returned —
which happens exactly on the `if df.empty: return df` short-circuit. -/
def standardize_alloc (df : DF) (dt : String) (defaultCurrency : String)
    (now : ℚ) : Bool × DF :=
  if df.isEmpty then (false, df)
  else
    (true,
      finalizeDataframe
        (ensureRequiredColumns
          (standardizeTimeGranularity
            (standardizeCurrenciesUnits
              (standardizeSymbols
                (standardizeTimeData
                  (standardizeDataTypes
                    (standardizeColumnNames df))) dt) dt defaultCurrency) dt)
          dt) dt now)

/-- The value result of `standardize_dataframe`. -/
def standardize_dataframe (df : DF) (dt : String) (defaultCurrency : String)
    (now : ℚ) : DF :=
  (standardize_alloc df dt defaultCurrency now).2

/-- The single-row input of spec Scenario A: capitalized provider
column names, `Ticker = "AAPL.US"`, `Date = "2024-01-01"`. -/
def stockRowA : DF :=
  ⟨["Open", "High", "Low", "Close", "Volume", "Ticker", "Date"],
   [[.num 100, .num 101, .num 99, .num (201/2), .num 1000,
     .str "AAPL.US", .str "2024-01-01"]]⟩

/-- Scenario A standardized as stock data (`standardized_at` stamped
at 2025-01-01). -/
def stockRowAOut : DF := standardize_dataframe stockRowA "stock" "USD" 1735689600

set_option maxRecDepth 1000000 in
set_option maxHeartbeats 8000000 in
/-- Claim C5, counterexample.  Standardizing the Scenario A input
leaves `symbol` null — not `"AAPL"`: the alias lookup
`possible_name in df_std.columns` is case-sensitive, so `"Ticker"` is
not recognized as an alias of `symbol`; the column passes through the
lowercase fallback as `ticker` and the `symbol` column is only
backfilled with nulls by `_ensure_required_columns`. -/
theorem standardizer_scenA_counterexample :
    DF.getCol stockRowAOut "symbol" = [Value.null] ∧
    ¬ DF.getCol stockRowAOut "symbol" = [Value.str "AAPL"] := by
  have h : DF.getCol stockRowAOut "symbol" = [Value.null] := by
    with_unfolding_all rfl
  refine ⟨h, ?_⟩
  rw [h]
  simp

set_option maxRecDepth 1000000 in
set_option maxHeartbeats 16000000 in
/-- Claim C5 (amended): for the Scenario A input, standardizing with
`data_type = "stock"` produces an output row whose `open` is 100.0 and
whose `timestamp` is 2024-01-01T00:00:00Z (epoch 1704067200); but the
alias mapping is case-sensitive exact matching, so `Ticker` is not
mapped to `symbol`: it passes through lower-cased as a `ticker` column
still holding `"AAPL.US"`, and the backfilled `symbol` column is
null. -/
theorem standardizer_scenA :
    DF.getCol stockRowAOut "open" = [Value.num 100] ∧
    DF.getCol stockRowAOut "timestamp" = [Value.time 1704067200] ∧
    DF.getCol stockRowAOut "ticker" = [Value.str "AAPL.US"] ∧
    DF.getCol stockRowAOut "symbol" = [Value.null] := by
  refine ⟨?_, ?_, ?_, ?_⟩ <;> with_unfolding_all rfl

/-- Claim C9, counterexample.  On an empty input the code takes
`if df.empty: return df` — it returns the caller's own frame object,
not a newly allocated structure, contradicting the claim that a new
structure distinct from the input is returned for every input
including the empty one. -/
theorem standardizer_empty_alloc_counterexample :
    (standardize_alloc ⟨["Open"], []⟩ "stock" "USD" 0).1 = false ∧
    (standardize_alloc ⟨["Open"], []⟩ "stock" "USD" 0).2 = ⟨["Open"], []⟩ := by
  with_unfolding_all decide

/-- Claim C9 (amended): `standardize_dataframe` never mutates its
input (it is a pure function of the frame in this embedding, and the
pipeline operates on a copy); for a *nonempty* input it returns a
newly allocated structure; for an empty input it returns the input
frame itself — empty, after logging a warning, without raising. -/
theorem standardizer_alloc (df : DF) (dt defaultCurrency : String) (now : ℚ) :
    (df.isEmpty = true →
      standardize_alloc df dt defaultCurrency now = (false, df)) ∧
    (df.isEmpty = false →
      (standardize_alloc df dt defaultCurrency now).1 = true) := by
  constructor
  · intro h
    unfold standardize_alloc
    rw [if_pos h]
  · intro h
    unfold standardize_alloc
    rw [if_neg (by rw [h]; exact Bool.false_ne_true)]

/-- Witness for `standardizer_alloc`: the empty and one-row frames. -/
theorem standardizer_alloc_witness :
    standardize_alloc ⟨["close"], []⟩ "forex" "USD" 7 = (false, ⟨["close"], []⟩) ∧
    (standardize_alloc ⟨["close"], [[.num 1]]⟩ "forex" "USD" 7).1 = true :=
  ⟨(standardizer_alloc ⟨["close"], []⟩ "forex" "USD" 7).1 rfl,
   (standardizer_alloc ⟨["close"], [[.num 1]]⟩ "forex" "USD" 7).2 rfl⟩
